import Mathlib

set_option autoImplicit false

/-!
Verification development for the WebGPU execution backend of onnxruntime-web
(`js/web/lib/wasm/jsep/backend-webgpu.ts` and
`js/web/lib/onnxjs/backends/backend-webgpu.ts`).

The TypeScript classes are shallowly embedded as Lean state-passing
functions.  JavaScript exceptions are modelled with `Except`: an operation
returns `Except BErr α × BState`, the second component being the state at
the moment of return or throw (JavaScript exceptions do not roll back
mutations).  Collaborator modules that are not part of the analysed sources
(`gpu-data-manager.ts`, `program-manager.ts`, output-allocation callbacks)
are modelled from the specification; each such definition carries a doc
comment saying so.
-/

/-! ## Association-list helpers (model of JavaScript `Map`) -/

/-- First-match lookup in an association list, like `Map.get`. -/
def lookupA {α β : Type} [DecidableEq α] : List (α × β) → α → Option β
  | [], _ => none
  | (k, v) :: rest, a => if k = a then some v else lookupA rest a

/-- Replace-or-append insertion, like `Map.set`. -/
def insertA {α β : Type} [DecidableEq α] : List (α × β) → α → β → List (α × β)
  | [], a, b => [(a, b)]
  | (k, v) :: rest, a, b => if k = a then (a, b) :: rest else (k, v) :: insertA rest a b

/-- Key removal, like `Map.delete`. -/
def removeA {α β : Type} [DecidableEq α] : List (α × β) → α → List (α × β)
  | [], _ => []
  | (k, v) :: rest, a => if k = a then removeA rest a else (k, v) :: removeA rest a

/-! ## Common data types -/

instance {ε α : Type} [DecidableEq ε] [DecidableEq α] : DecidableEq (Except ε α) := fun x y =>
  match x, y with
  | .ok a, .ok b =>
    if h : a = b then .isTrue (congrArg _ h) else .isFalse (fun he => h (Except.ok.inj he))
  | .error a, .error b =>
    if h : a = b then .isTrue (congrArg _ h) else .isFalse (fun he => h (Except.error.inj he))
  | .ok _, .error _ => .isFalse (fun he => Except.noConfusion he)
  | .error _, .ok _ => .isFalse (fun he => Except.noConfusion he)

/-- Errors thrown by the backend.  Each constructor corresponds to one
`throw new Error(...)` site of the sources (or to a JavaScript runtime
`TypeError`, see `nullCommandEncoder`).  The spec's taxonomy maps
`inputSizeMismatch` / `outputSizeMismatch` / `invalidOutputIndex` to
ShapeMismatch, `kernelNotCreated` to NotFound, `kernelReentrant` to
ConcurrencyViolation, `kernelNotImplemented` to NotImplemented. -/
inductive BErr : Type where
  | inputSizeMismatch (expected : Nat)
  | noGpuDataForInput (dataId : Nat)
  | outputSizeMismatch (expected : Nat)
  | invalidOutputIndex (index : Int)
  | noGpuDataForOutput (dataId : Nat)
  | kernelNotImplemented (name : String)
  | kernelNotCreated (kernelId : Nat)
  | kernelReentrant (name : String)
  | entryThrow
  | fuelExhausted
  | nullCommandEncoder
  | webgpuNotAvailable
  | noGpuAdapter
  | deviceRequestFailed
deriving DecidableEq, Repr

/-- The ShapeMismatch family of the spec's error taxonomy. -/
def BErr.isShapeMismatch : BErr → Bool
  | .inputSizeMismatch _ => true
  | .outputSizeMismatch _ => true
  | .invalidOutputIndex _ => true
  | _ => false

/-- A GPU-resident data block (`GpuData` of `webgpu/types.ts`): an opaque
id plus its `GpuDataType`.  The backing `GPUBuffer` is not modelled. -/
structure GpuData : Type where
  id : Nat
  type : Nat
deriving DecidableEq, Repr

/-- A tensor header (`TensorView`): gpu-data id, shape, element type. -/
structure TensorView : Type where
  data : Nat
  dims : List Nat
  dataType : Nat
deriving DecidableEq, Repr

/-- One command recorded into a command encoder.  Only compute dispatches
are recorded by the modelled operations; the command remembers which
compiled artifact it dispatches and the dispatch-group sizes. -/
inductive Cmd : Type where
  | dispatch (buildId : Nat) (groups : List Nat)
deriving DecidableEq, Repr

/-! ## GPU data manager

`gpu-data-manager.ts` is not among the analysed sources.
Modelled from the spec: §4.1 Buffer Registry — `create` returns a fresh
buffer registered as live; `release` removes it from the live set and
returns it into the free pool (the `released` list records every released
id); `refreshPendingBuffers` processes the pending-buffer queue at flush.
Byte sizes and the reuse-by-size-bucket policy are not needed by any claim
and are not modelled. -/

structure GpuDataManagerState : Type where
  live : List (Nat × GpuData)
  released : List Nat
  pendingBuffers : List Nat
  nextId : Nat
deriving DecidableEq, Repr

/-- Modelled from the spec: `gpuDataManager.get(id)` — pure lookup of a
live gpu data block. -/
def gpuGet (g : GpuDataManagerState) (id : Nat) : Option GpuData :=
  lookupA g.live id

/-- Modelled from the spec: `gpuDataManager.create(size)` — registers a
fresh live buffer and returns it. -/
def gpuCreate (g : GpuDataManagerState) : GpuData × GpuDataManagerState :=
  let d : GpuData := { id := g.nextId, type := 0 }
  (d, { g with live := insertA g.live d.id d, nextId := g.nextId + 1 })

/-- Modelled from the spec: `gpuDataManager.release(id)` — removes the
buffer from the live set and records it in the free pool. -/
def gpuRelease (g : GpuDataManagerState) (id : Nat) : GpuDataManagerState :=
  { g with live := removeA g.live id, released := g.released ++ [id] }

/-- Modelled from the spec: `gpuDataManager.refreshPendingBuffers()` —
processes the pending-buffer queue accumulated since the last flush. -/
def gpuRefreshPendingBuffers (g : GpuDataManagerState) : GpuDataManagerState :=
  { g with pendingBuffers := [] }

/-! ## Programs and the program cache -/

/-- Output descriptor of a program (`programInfo.outputs[i]`). -/
structure OutputDesc : Type where
  dims : List Nat
  dataType : Nat
deriving DecidableEq, Repr

/-- `ProgramInfo` of `webgpu/types.ts`: the fields the backend reads.
`dispatchGroup` is the dispatch-sizing function of the inputs. -/
structure ProgramInfo : Type where
  name : String
  cacheHint : Option String
  inputTypes : List Nat
  outputs : List OutputDesc
  dispatchGroup : List TensorView → List Nat

/-- The `ProgramInfoLoader|ProgramInfo` union taken by `run`:
either a materialized `ProgramInfo` or a lazy loader exposing
`name`/`cacheHint`/`inputTypes` plus a `get` thunk. -/
inductive ProgramLike : Type where
  | info (pi : ProgramInfo)
  | loader (name : String) (cacheHint : Option String) (inputTypes : List Nat)
      (get : Unit → ProgramInfo)

def ProgramLike.name : ProgramLike → String
  | .info pi => pi.name
  | .loader n _ _ _ => n

def ProgramLike.cacheHint : ProgramLike → Option String
  | .info pi => pi.cacheHint
  | .loader _ h _ _ => h

def ProgramLike.inputTypes : ProgramLike → List Nat
  | .info pi => pi.inputTypes
  | .loader _ _ ts _ => ts

/-- `typeof program.get === 'function' ? program.get() : program` —
materializes the `ProgramInfo` when no cached artifact exists. -/
def ProgramLike.resolve : ProgramLike → ProgramInfo
  | .info pi => pi
  | .loader _ _ _ get => get ()

/-- A compiled program (`Artifact` of the program manager): the
`ProgramInfo` it was built from plus a build serial number that is unique
per compilation, so two distinct compilations are distinguishable. -/
structure Artifact : Type where
  programInfo : ProgramInfo
  buildId : Nat

/-- `getProgramInfoUniqueKey` of `jsep/backend-webgpu.ts`: the cache key
built from program name, cache hint (JavaScript-truthy check: the empty
string counts as absent), and the ordered input shapes and gpu-data
types. -/
def getProgramInfoUniqueKey (program : ProgramLike) (inputTensorShapes : List (List Nat))
    (inputGpuDataTypes : List Nat) : String :=
  let inputTensorShapesToString :=
    String.intercalate "_" (inputTensorShapes.map fun d => String.intercalate "," (d.map toString))
  let inputGpuDataTypesToString := String.intercalate "_" (inputGpuDataTypes.map toString)
  let key := program.name ++
    (match program.cacheHint with
     | some h => if h = "" then "" else "[" ++ h ++ "]"
     | none => "")
  key ++ ":" ++ inputTensorShapesToString ++ ";" ++ inputGpuDataTypesToString

/-! ## Kernel instances and the backend state (`jsep/backend-webgpu.ts`) -/

/-- One statement a kernel entry point can execute against the backend.
Kernel implementations (`op-resolve-rules.ts` plug-ins, outside the
analysed sources) interact with the backend only through its methods, so
an entry body is deeply embedded as a list of such calls. -/
inductive KStmt : Type where
  | runOp (program : ProgramLike) (inputs : List TensorView) (outputIndices : List Int)
  | computeK (kernelId : Nat)
  | flushOp
  | allocOp (size : Nat)
  | freeOp (id : Nat)
  | throwOp

/-- A kernel entry point: the backend calls it performs in order, and the
number it returns when all of them succeed. -/
structure KProg : Type where
  stmts : List KStmt
  ret : Int

/-- One entry of the `kernels` map:
`[name, RunFunction, [parseAttributeFn | undefined, attribute]]`. -/
structure Kernel : Type where
  name : String
  entry : KProg
  attrParse : Option (Int → Int)
  attr : Int

/-- The mutable state of the jsep `WebGpuBackend`.

Source fields: `temporaryData`, `currentKernelId`, `kernelPersistentData`
(keyed by `number|null` because the source indexes it with
`this.currentKernelId!`), `kernels`, `commandEncoder` (the list of
commands recorded so far, `none` when no recording session is open),
`computePassEncoder` (whether a compute pass is open), and
`pendingDispatchNumber`.  `gpu` is the gpu-data-manager state and
`artifacts` the program manager's compiled-program cache.

Observability instrumentation (not backend fields): `buildCount` counts
program compilations and serves as the fresh build id, `submittedLog`
records every command buffer submitted to the device queue,
`lastRunArtifact` remembers the artifact used by the most recent dispatch,
and `tempAllocLog` records the id of every buffer ever allocated under the
temporary output marker. -/
structure BState : Type where
  temporaryData : List GpuData
  currentKernelId : Option Nat
  kernelPersistentData : List (Option Nat × List GpuData)
  kernels : List (Nat × Kernel)
  commandEncoder : Option (List Cmd)
  computePassEncoder : Bool
  pendingDispatchNumber : Nat
  gpu : GpuDataManagerState
  artifacts : List (String × Artifact)
  buildCount : Nat
  submittedLog : List (List Cmd)
  lastRunArtifact : Option Artifact
  tempAllocLog : List Nat

namespace Jsep

/-- `getCommandEncoder()`: lazily opens a recording session. -/
def getCommandEncoder (s : BState) : BState :=
  match s.commandEncoder with
  | some _ => s
  | none => { s with commandEncoder := some [] }

/-- `getComputePassEncoder()`: lazily opens a compute pass nested in the
current recording session. -/
def getComputePassEncoder (s : BState) : BState :=
  if s.computePassEncoder then s
  else { (getCommandEncoder s) with computePassEncoder := true }

/-- `endComputePass()`: closes the open compute pass, if any. -/
def endComputePass (s : BState) : BState :=
  if s.computePassEncoder then { s with computePassEncoder := false } else s

/-- `flush()` of the jsep backend: ends the compute pass, submits
`getCommandEncoder().finish()` to the device queue (note the lazy
`getCommandEncoder()` call: with no open session it creates an encoder and
submits an empty command buffer), refreshes pending buffers, clears the
recording handle and zeroes the pending-dispatch counter. -/
def flush (s : BState) : BState :=
  let s1 := getCommandEncoder (endComputePass s)
  { s1 with
    submittedLog := s1.submittedLog ++ [(s1.commandEncoder.getD [])],
    gpu := gpuRefreshPendingBuffers s1.gpu,
    commandEncoder := none,
    pendingDispatchNumber := 0 }

/-- Modelled from the spec: the pending-dispatch flush threshold of the
Command Batcher (§4.3); the program manager flushes once the counter
reaches it. -/
def flushThreshold : Nat := 16

/-- Modelled from the spec: `programManager.build(programInfo)`
(`program-manager.ts` is not among the analysed sources) — compiles the
program, producing an artifact with a fresh build serial number. -/
def pmBuild (pi : ProgramInfo) (s : BState) : Artifact × BState :=
  ({ programInfo := pi, buildId := s.buildCount }, { s with buildCount := s.buildCount + 1 })

/-- Modelled from the spec: `programManager.run(artifact, ...)` — records
the dispatch into the current compute pass (opening it lazily), increments
the pending-dispatch counter, and flushes when the counter reaches the
threshold (§4.5 steps 5–6). -/
def pmRun (artifact : Artifact) (dispatch : List Nat) (s : BState) : BState :=
  let s1 := getComputePassEncoder s
  let s2 := { s1 with
    commandEncoder := some ((s1.commandEncoder.getD []) ++ [Cmd.dispatch artifact.buildId dispatch]),
    lastRunArtifact := some artifact,
    pendingDispatchNumber := s1.pendingDispatchNumber + 1 }
  if flushThreshold ≤ s2.pendingDispatchNumber then flush s2 else s2

/-- `getArtifact` of the program manager: pure cache lookup. -/
def getArtifact (s : BState) (key : String) : Option Artifact :=
  lookupA s.artifacts key

/-- `setArtifact` of the program manager: cache insertion. -/
def setArtifact (key : String) (a : Artifact) (s : BState) : BState :=
  { s with artifacts := insertA s.artifacts key a }

/-- `alloc(size)`: creates a gpu data block and returns its id. -/
def alloc (s : BState) : Nat × BState :=
  let (d, g) := gpuCreate s.gpu
  (d.id, { s with gpu := g })

/-- `free(ptr)`: releases the gpu data block. -/
def free (id : Nat) (s : BState) : BState :=
  { s with gpu := gpuRelease s.gpu id }

/-- Modelled from the spec: the output-allocation callbacks
`createKernelOutput` / `createTemporaryOutput` passed to `run` by the wasm
glue (outside the analysed sources) — each acquires a fresh GPU buffer
from the Buffer Registry and wraps it in a tensor header (§4.5 step 3). -/
def createOutputTV (dataType : Nat) (dims : List Nat) (s : BState) : TensorView × BState :=
  let (d, g) := gpuCreate s.gpu
  ({ data := d.id, dims := dims, dataType := dataType }, { s with gpu := g })


/-! ## The `run` protocol (`WebGpuBackend.run`) -/

/-- The input-resolution loop of `run`: looks up the gpu data of every
input, failing on the first input with no registered gpu data. -/
def resolveInputDatas (g : GpuDataManagerState) : List TensorView → Except BErr (List GpuData)
  | [] => .ok []
  | tv :: rest =>
    match gpuGet g tv.data with
    | none => .error (.noGpuDataForInput tv.data)
    | some d => (resolveInputDatas g rest).map (d :: ·)

/-- One iteration of the output-creation loop of `run` (source lines
156–183): validates the requested output index against the declared range
(`n` is the program's declared output count; `-2` and `-1` are the
temporary/persistent sentinels), acquires a GPU buffer for the output,
looks its gpu data up, and tracks it on `temporaryData` (and the
`tempAllocLog` instrumentation) when temporary-marked or on the
persistent-data list of the current kernel instance when
persistent-marked. -/
def outputsStep (n : Nat) (idx : Int) (od : OutputDesc) (s : BState) :
    Except BErr (TensorView × GpuData) × BState :=
  if idx < -2 ∨ (n : Int) ≤ idx then (.error (.invalidOutputIndex idx), s)
  else
    let isTemporary := idx = -2
    let isPersistent := idx = -1
    let (tv, s1) := createOutputTV od.dataType od.dims s
    match gpuGet s1.gpu tv.data with
    | none => (.error (.noGpuDataForOutput tv.data), s1)
    | some gpuData =>
      let s2 := if isTemporary then
          { s1 with temporaryData := s1.temporaryData ++ [gpuData],
                    tempAllocLog := s1.tempAllocLog ++ [gpuData.id] }
        else s1
      let s3 := if isPersistent then
          let persistentData := (lookupA s2.kernelPersistentData s2.currentKernelId).getD []
          { s2 with kernelPersistentData :=
              insertA s2.kernelPersistentData s2.currentKernelId (persistentData ++ [gpuData]) }
        else s2
      (.ok (tv, gpuData), s3)

/-- The output-creation loop of `run`, iterating `outputsStep` over the
pairs of validated output index and declared output descriptor and
collecting the created tensor views and their gpu datas. -/
def outputsLoop (n : Nat) : List (Int × OutputDesc) → BState →
    Except BErr (List TensorView × List GpuData) × BState
  | [], s => (.ok ([], []), s)
  | (idx, od) :: rest, s =>
    match outputsStep n idx od s with
    | (.error e, s1) => (.error e, s1)
    | (.ok (tv, gpuData), s3) =>
      match outputsLoop n rest s3 with
      | (.ok (views, datas), s4) => (.ok (tv :: views, gpuData :: datas), s4)
      | (.error e, s4) => (.error e, s4)

/-- The program info `run` works with: the one of the cached artifact when
the cache key hits, else the materialized loader/info
(source lines 141–145). -/
def resolvedInfo (artifact0 : Option Artifact) (program : ProgramLike) : ProgramInfo :=
  match artifact0 with
  | some a => a.programInfo
  | none => program.resolve

/-- `outputIndices.length === 0 ? programInfo.outputs.map((_, i) => i) :
outputIndices` (source line 148): an empty request defaults to the
identity indices `0, 1, ..., n-1` over the declared outputs. -/
def validatedIndices (outputIndices : List Int) (n : Nat) : List Int :=
  if outputIndices.length = 0 then (List.range n).map Int.ofNat else outputIndices

/-- The tail of `run` after output creation (source lines 185–192): on
loop success, build and cache the artifact when the cache missed, then
record the dispatch through the program manager; on loop failure,
propagate the error. -/
def runFinish (key : String) (artifact0 : Option Artifact) (programInfo : ProgramInfo)
    (inputs : List TensorView) :
    Except BErr (List TensorView × List GpuData) × BState →
    Except BErr (List TensorView) × BState
  | (.error e, s1) => (.error e, s1)
  | (.ok (outputTensorViews, _outputDatas), s1) =>
    let (artifact, s2) := match artifact0 with
      | some a => (a, s1)
      | none =>
        let (a, sb) := pmBuild programInfo s1
        (a, setArtifact key a sb)
    (.ok outputTensorViews, pmRun artifact (artifact.programInfo.dispatchGroup inputs) s2)

/-- `WebGpuBackend.run` of `jsep/backend-webgpu.ts`: validates the input
arity, resolves input gpu data, computes the cache key, resolves the
program info (from the cached artifact if present, else by materializing
the loader), validates the requested output indices (an empty request
defaults to `0, 1, ..., n-1`), creates the outputs, builds and caches the
artifact when absent, and records the dispatch via the program manager. -/
def run (program : ProgramLike) (inputs : List TensorView) (outputIndices : List Int)
    (s : BState) : Except BErr (List TensorView) × BState :=
  if inputs.length ≠ program.inputTypes.length then
    (.error (.inputSizeMismatch program.inputTypes.length), s)
  else
    match resolveInputDatas s.gpu inputs with
    | .error e => (.error e, s)
    | .ok inputDatas =>
      let key := getProgramInfoUniqueKey program (inputs.map (·.dims)) (inputDatas.map (·.type))
      let artifact0 := getArtifact s key
      let programInfo := resolvedInfo artifact0 program
      let validatedOutputIndices := validatedIndices outputIndices programInfo.outputs.length
      if validatedOutputIndices.length ≠ programInfo.outputs.length then
        (.error (.outputSizeMismatch programInfo.outputs.length), s)
      else
        runFinish key artifact0 programInfo inputs
          (outputsLoop programInfo.outputs.length
            (validatedOutputIndices.zip programInfo.outputs) s)

/-! ## Kernel registry operations -/

/-- `createKernel(name, kernelId, attribute)`: resolves the kernel name in
the rules table (`WEBGPU_OP_RESOLVE_RULES`, whose content lives outside
the analysed sources and is therefore a parameter here) and registers the
instance with its unparsed attribute. -/
def createKernel (rules : List (String × (KProg × Option (Int → Int)))) (name : String)
    (kernelId : Nat) (attr : Int) (s : BState) : Except BErr Unit × BState :=
  match lookupA rules name with
  | none => (.error (.kernelNotImplemented name), s)
  | some (entry, parse) =>
    let kernel : Kernel := { name := name, entry := entry, attrParse := parse, attr := attr }
    (.ok (), { s with kernels := insertA s.kernels kernelId kernel })

/-- `releaseKernel(kernelId)`: releases every persistent buffer owned by
the instance, removes its persistent-data entry, then removes the
instance from the registry. -/
def releaseKernel (kernelId : Nat) (s : BState) : BState :=
  let s1 := match lookupA s.kernelPersistentData (some kernelId) with
    | some persistentData =>
      { s with gpu := persistentData.foldl (fun g (d : GpuData) => gpuRelease g d.id) s.gpu,
               kernelPersistentData := removeA s.kernelPersistentData (some kernelId) }
    | none => s
  { s1 with kernels := removeA s1.kernels kernelId }

/-- Interpreter tasks: either a kernel-entry body or a kernel invocation. -/
inductive KTask : Type where
  | prog (stmts : List KStmt)
  | kern (kernelId : Nat)

/-- The `finally` block of `computeKernel` applied to the entry body's
outcome: releases every buffer tracked on `temporaryData`, clears
`temporaryData` and the currently-executing marker — unconditionally, on
the normal return and on every thrown error alike — and converts a
normal return into the entry's return value. -/
def kernReturn (ret : Int) : Except BErr Int × BState → Except BErr Int × BState
  | (r, s4) =>
    let s5 := { s4 with
      gpu := s4.temporaryData.foldl (fun g (d : GpuData) => gpuRelease g d.id) s4.gpu,
      temporaryData := [],
      currentKernelId := none }
    match r with
    | .ok _ => (.ok ret, s5)
    | .error e => (.error e, s5)

/-- The fueled interpreter.  `interp fuel (.kern kid) s` is
`WebGpuBackend.computeKernel(kid, ...)`: instance lookup (NotFound),
reentrancy guard (ConcurrencyViolation), setting the currently-executing
marker, one-time lazy attribute parsing, resetting `temporaryData`,
running the entry body, and the `finally` block — releasing every
temporary buffer, clearing `temporaryData` and the marker — which runs on
success and on every error path alike.  `interp fuel (.prog stmts) s`
runs an entry body statement by statement, propagating the first thrown
error together with the state at the throw.  Fuel decreases at every
step; exhaustion is reported as an error distinct from all source
errors. -/
def interp : Nat → KTask → BState → Except BErr Int × BState
  | 0, _, s => (.error .fuelExhausted, s)
  | _ + 1, .prog [], s => (.ok 0, s)
  | fuel + 1, .prog (stmt :: rest), s =>
    let step : Except BErr Unit × BState :=
      match stmt with
      | .runOp program inputs outputIndices =>
        (match run program inputs outputIndices s with
         | (.ok _, s1) => (.ok (), s1)
         | (.error e, s1) => (.error e, s1))
      | .computeK kernelId =>
        (match interp fuel (.kern kernelId) s with
         | (.ok _, s1) => (.ok (), s1)
         | (.error e, s1) => (.error e, s1))
      | .flushOp => (.ok (), flush s)
      | .allocOp _ => (.ok (), (alloc s).2)
      | .freeOp id => (.ok (), free id s)
      | .throwOp => (.error .entryThrow, s)
    match step with
    | (.ok _, s1) => interp fuel (.prog rest) s1
    | (.error e, s1) => (.error e, s1)
  | fuel + 1, .kern kernelId, s =>
    match lookupA s.kernels kernelId with
    | none => (.error (.kernelNotCreated kernelId), s)
    | some kernel =>
      match s.currentKernelId with
      | some _ => (.error (.kernelReentrant kernel.name), s)
      | none =>
        let s1 := { s with currentKernelId := some kernelId }
        let s2 := match kernel.attrParse with
          | some parse =>
            let parsed : Kernel := { kernel with attr := parse kernel.attr, attrParse := none }
            { s1 with kernels := insertA s1.kernels kernelId parsed }
          | none => s1
        let s3 := { s2 with temporaryData := [] }
        kernReturn kernel.entry.ret (interp fuel (.prog kernel.entry.stmts) s3)

/-- `WebGpuBackend.computeKernel(kernelId, context)`, as a fueled wrapper
around the interpreter. -/
def computeKernel (fuel : Nat) (kernelId : Nat) (s : BState) : Except BErr Int × BState :=
  interp fuel (.kern kernelId) s

end Jsep


/-! ## Initialization environment (shared by both backends) -/

/-- The asynchronous browser environment observed during `initialize`:
whether `navigator.gpu` exists, whether `requestAdapter()` yields an
adapter, the adapter's capability limits and features, whether
`requestDevice` rejects, and (jsep only) whether
`env.webgpu.profilingMode === 'default'`. -/
structure GpuEnv : Type where
  gpuAvailable : Bool
  adapterAvailable : Bool
  hasTimestampQuery : Bool
  maxComputeWorkgroupStorageSize : Nat
  maxComputeWorkgroupsPerDimension : Nat
  maxStorageBufferBindingSize : Nat
  deviceRequestFails : Bool
  profilingModeDefault : Bool
deriving DecidableEq, Repr

/-- What a successful initialization established: the device was acquired,
the capability limits negotiated into the device descriptor (copied from
the adapter's limits), whether profiling was turned on
(`supportProfiling` in the onnxjs backend, `profilingEnabled` in the
jsep backend) and whether the timestamp query set was created. -/
structure InitResult : Type where
  deviceAcquired : Bool
  requiredLimits : Nat × Nat × Nat
  profiling : Bool
  querySetCreated : Bool
deriving DecidableEq, Repr

namespace Jsep

/-- `initialize()` of the jsep backend: throws on missing WebGPU, throws
on a missing adapter, and has no try/catch, so a rejected
`requestDevice` propagates to the caller as well.  Profiling is enabled
only when the adapter has `timestamp-query` and
`env.webgpu.profilingMode === 'default'`. -/
def initializeBackend (e : GpuEnv) : Except BErr InitResult :=
  if ¬e.gpuAvailable then .error .webgpuNotAvailable
  else if ¬e.adapterAvailable then .error .noGpuAdapter
  else
    let profilingEnabled := e.hasTimestampQuery && e.profilingModeDefault
    if e.deviceRequestFails then .error .deviceRequestFailed
    else .ok {
      deviceAcquired := true,
      requiredLimits := (e.maxComputeWorkgroupStorageSize,
        e.maxComputeWorkgroupsPerDimension, e.maxStorageBufferBindingSize),
      profiling := profilingEnabled,
      querySetCreated := profilingEnabled }

end Jsep

/-! ## The onnxjs `WebGpuBackend` (`onnxjs/backends/backend-webgpu.ts`) -/

namespace Onnxjs

/-- The mutable command-batching state of the onnxjs backend. -/
structure OState : Type where
  commandEncoder : Option (List Cmd)
  computePassEncoder : Bool
  pendingDispatchNumber : Nat
  submittedLog : List (List Cmd)
deriving DecidableEq, Repr

/-- `getCommandEncoder()`: lazily opens a recording session. -/
def getCommandEncoder (s : OState) : OState :=
  match s.commandEncoder with
  | some _ => s
  | none => { s with commandEncoder := some [] }

/-- `endComputePass()`: closes the open compute pass, if any. -/
def endComputePass (s : OState) : OState :=
  if s.computePassEncoder then { s with computePassEncoder := false } else s

/-- `flush()` of the onnxjs backend: ends the compute pass and submits
`this.commandEncoder!.finish()`.  The non-null assertion is unchecked:
with no open recording session the call dereferences `null` and fails
with a runtime TypeError, modelled as `nullCommandEncoder`. -/
def flush (s : OState) : Except BErr OState :=
  let s1 := endComputePass s
  match s1.commandEncoder with
  | none => .error .nullCommandEncoder
  | some cmds =>
    .ok { s1 with
      submittedLog := s1.submittedLog ++ [cmds],
      commandEncoder := none,
      pendingDispatchNumber := 0 }

/-- `initialize()` of the onnxjs backend: the whole body sits in a
try/catch; missing WebGPU and a missing adapter return `false`, any error
thrown while acquiring the device is caught and also returns `false`.
Success returns `true` with the device acquired and the adapter's limits
negotiated into the device descriptor. -/
def initializeBackend (e : GpuEnv) : Bool × Option InitResult :=
  if ¬e.gpuAvailable then (false, none)
  else if ¬e.adapterAvailable then (false, none)
  else if e.deviceRequestFails then (false, none)
  else
    let supportProfiling := e.hasTimestampQuery
    (true, some {
      deviceAcquired := true,
      requiredLimits := (e.maxComputeWorkgroupStorageSize,
        e.maxComputeWorkgroupsPerDimension, e.maxStorageBufferBindingSize),
      profiling := supportProfiling,
      querySetCreated := supportProfiling })

end Onnxjs


/-! ## Concrete fixtures used by the witness theorems -/

/-- A gpu-data-manager state with two live input buffers (ids 10, 11). -/
def fixGpu : GpuDataManagerState :=
  { live := [(10, { id := 10, type := 0 }), (11, { id := 11, type := 0 })],
    released := [], pendingBuffers := [], nextId := 100 }

/-- An elementwise-add program: two inputs, one `[2,3]` output. -/
def addInfo : ProgramInfo :=
  { name := "add", cacheHint := none, inputTypes := [0, 0],
    outputs := [{ dims := [2, 3], dataType := 1 }],
    dispatchGroup := fun _ => [1] }

/-- The two `[2,3]` input tensors over the live buffers of `fixGpu`. -/
def fixInputs : List TensorView :=
  [{ data := 10, dims := [2, 3], dataType := 1 }, { data := 11, dims := [2, 3], dataType := 1 }]

/-- A kernel entry that invokes `run` on `addInfo` with one temporary
output and then throws, exercising the error-path cleanup. -/
def throwingEntry : KProg :=
  { stmts := [.runOp (.info addInfo) fixInputs [-2], .throwOp], ret := 0 }

/-- A kernel entry that performs one ordinary `run` of `addInfo`. -/
def addEntry : KProg :=
  { stmts := [.runOp (.info addInfo) fixInputs [0]], ret := 0 }

/-- A trivial kernel entry with an empty body. -/
def emptyEntry : KProg := { stmts := [], ret := 7 }

/-- A kernel entry that calls `run` with one input against the
two-input `addInfo` program (input-arity mismatch). -/
def badArityEntry : KProg :=
  { stmts := [.runOp (.info addInfo) [{ data := 10, dims := [2, 3], dataType := 1 }] [0]],
    ret := 0 }

/-- A kernel entry that calls `run` requesting output index 5 against the
one-output `addInfo` program (output index out of range). -/
def badIndexEntry : KProg :=
  { stmts := [.runOp (.info addInfo) fixInputs [5]], ret := 0 }

/-- A backend state with kernels 1 (throwing add), 2 (plain add) and
3 (empty body) registered and no invocation in progress. -/
def fixState : BState :=
  { temporaryData := [],
    currentKernelId := none,
    kernelPersistentData := [],
    kernels := [
      (1, { name := "addThrow", entry := throwingEntry, attrParse := none, attr := 0 }),
      (2, { name := "add", entry := addEntry, attrParse := none, attr := 0 }),
      (3, { name := "empty", entry := emptyEntry, attrParse := none, attr := 0 }),
      (4, { name := "badArity", entry := badArityEntry, attrParse := none, attr := 0 }),
      (5, { name := "badIndex", entry := badIndexEntry, attrParse := none, attr := 0 })],
    commandEncoder := none,
    computePassEncoder := false,
    pendingDispatchNumber := 0,
    gpu := fixGpu,
    artifacts := [],
    buildCount := 0,
    submittedLog := [],
    lastRunArtifact := none,
    tempAllocLog := [] }



/-! ## Derived definitions used by the theorems -/

/-- Lookup with default `[]`, like reading a JS `Map` entry that may be
absent. -/
def lookupD {K : Type} [DecidableEq K] (m : List (K × List GpuData)) (key : K) : List GpuData :=
  (lookupA m key).getD []

/-- Well-formedness of the gpu-data manager: every live id is below the
fresh-id counter, so freshly created buffers never collide with live
ones. -/
def GpuWF (g : GpuDataManagerState) : Prop :=
  ∀ p ∈ g.live, p.1 < g.nextId

instance (g : GpuDataManagerState) : Decidable (GpuWF g) :=
  List.decidableBAll _ g.live

/-- Pointwise preservation of live gpu-data entries. -/
def gpuLiveMono (g g' : GpuDataManagerState) : Prop :=
  ∀ id d, lookupA g.live id = some d → lookupA g'.live id = some d

/-- The cache key `run` computes for a program and resolved input datas. -/
def runKey (program : ProgramLike) (inputs : List TensorView) (datas : List GpuData) : String :=
  getProgramInfoUniqueKey program (inputs.map (·.dims)) (datas.map (·.type))

/-- A jsep backend state with an open recording session holding one
recorded dispatch and an open compute pass. -/
def fixOpenState : BState :=
  { fixState with
    commandEncoder := some [Cmd.dispatch 0 [1]],
    computePassEncoder := true,
    pendingDispatchNumber := 3 }

/-- An onnxjs backend state with no open recording session. -/
def fixOState : Onnxjs.OState :=
  { commandEncoder := none, computePassEncoder := false,
    pendingDispatchNumber := 0, submittedLog := [] }

/-- An onnxjs backend state with an open recording session and pass. -/
def fixOpenOState : Onnxjs.OState :=
  { commandEncoder := some [Cmd.dispatch 0 [1]], computePassEncoder := true,
    pendingDispatchNumber := 3, submittedLog := [] }

/-- A browser environment with no WebGPU at all. -/
def noGpuEnv : GpuEnv :=
  { gpuAvailable := false, adapterAvailable := false, hasTimestampQuery := false,
    maxComputeWorkgroupStorageSize := 0, maxComputeWorkgroupsPerDimension := 0,
    maxStorageBufferBindingSize := 0, deviceRequestFails := false,
    profilingModeDefault := false }

/-- A browser environment where WebGPU exists but no adapter is returned. -/
def noAdapterEnv : GpuEnv :=
  { gpuAvailable := true, adapterAvailable := false, hasTimestampQuery := false,
    maxComputeWorkgroupStorageSize := 0, maxComputeWorkgroupsPerDimension := 0,
    maxStorageBufferBindingSize := 0, deviceRequestFails := false,
    profilingModeDefault := false }

/-- A browser environment where device acquisition fails. -/
def deviceFailEnv : GpuEnv :=
  { gpuAvailable := true, adapterAvailable := true, hasTimestampQuery := false,
    maxComputeWorkgroupStorageSize := 0, maxComputeWorkgroupsPerDimension := 0,
    maxStorageBufferBindingSize := 0, deviceRequestFails := true,
    profilingModeDefault := false }

/-- A healthy browser environment with a timestamp-query adapter. -/
def okEnv : GpuEnv :=
  { gpuAvailable := true, adapterAvailable := true, hasTimestampQuery := true,
    maxComputeWorkgroupStorageSize := 32768, maxComputeWorkgroupsPerDimension := 65535,
    maxStorageBufferBindingSize := 134217728, deviceRequestFails := false,
    profilingModeDefault := false }

/-- The backend-state components that the output-creation loop and the
kernel-entry statements never change (packed as one tuple so preservation
composes by transitivity of equality). -/
def stateFrame (s : BState) :
    List (String × Artifact) × Nat × Option Nat × List (Nat × Kernel) × Option Artifact ×
      List (List Cmd) × Option (List Cmd) × Bool × Nat × List Nat × List Nat :=
  (s.artifacts, s.buildCount, s.currentKernelId, s.kernels, s.lastRunArtifact,
   s.submittedLog, s.commandEncoder, s.computePassEncoder, s.pendingDispatchNumber,
   s.gpu.released, s.gpu.pendingBuffers)

/-- What one backend call made from inside a kernel entry preserves or
only grows: the currently-executing marker and the kernel registry are
unchanged, `temporaryData` and the temporary-allocation log grow in
lockstep by the same buffers, per-instance persistent-data lists only
grow, and the released-buffer log only grows. -/
def EntryInv (s s' : BState) : Prop :=
  s'.currentKernelId = s.currentKernelId ∧
  s'.kernels = s.kernels ∧
  (∃ t : List GpuData, s'.temporaryData = s.temporaryData ++ t ∧
    s'.tempAllocLog = s.tempAllocLog ++ t.map (·.id)) ∧
  (∀ key, ∃ u, lookupD s'.kernelPersistentData key = lookupD s.kernelPersistentData key ++ u) ∧
  (∃ r, s'.gpu.released = s.gpu.released ++ r)

/-- The state `computeKernel` hands to the kernel entry: the
currently-executing marker set, attributes parsed on first invocation,
`temporaryData` reset. -/
def kernStart (kid : Nat) (K : Kernel) (s : BState) : BState :=
  { s with
    currentKernelId := some kid,
    kernels := match K.attrParse with
      | some parse => insertA s.kernels kid { K with attr := parse K.attr, attrParse := none }
      | none => s.kernels,
    temporaryData := [] }

/-! # Theorems -/

theorem lookupA_insertA_self {α β : Type} [DecidableEq α] (m : List (α × β)) (a : α) (b : β) :
    lookupA (insertA m a b) a = some b := by
  induction m with
  | nil => simp [insertA, lookupA]
  | cons hd tl ih =>
    obtain ⟨k, v⟩ := hd
    by_cases h : k = a <;> simp [insertA, lookupA, h, ih]

theorem lookupA_insertA_ne {α β : Type} [DecidableEq α] (m : List (α × β)) (a a' : α) (b : β)
    (h : a ≠ a') : lookupA (insertA m a b) a' = lookupA m a' := by
  induction m with
  | nil => simp [insertA, lookupA, h]
  | cons hd tl ih =>
    obtain ⟨k, v⟩ := hd
    by_cases hk : k = a
    · subst hk
      simp [insertA, lookupA, h]
    · simp [insertA, lookupA, hk, ih]

theorem lookupA_removeA_self {α β : Type} [DecidableEq α] (m : List (α × β)) (a : α) :
    lookupA (removeA m a) a = none := by
  induction m with
  | nil => simp [removeA, lookupA]
  | cons hd tl ih =>
    obtain ⟨k, v⟩ := hd
    by_cases h : k = a <;> simp [removeA, lookupA, h, ih]

theorem lookupA_removeA_ne {α β : Type} [DecidableEq α] (m : List (α × β)) (a a' : α)
    (h : a ≠ a') : lookupA (removeA m a) a' = lookupA m a' := by
  induction m with
  | nil => simp [removeA, lookupA]
  | cons hd tl ih =>
    obtain ⟨k, v⟩ := hd
    by_cases hk : k = a
    · subst hk
      simp [removeA, lookupA, h, ih]
    · by_cases hk' : k = a'
      · subst hk'
        simp [removeA, lookupA, hk, Ne.symm h]
      · simp [removeA, lookupA, hk, hk', ih]

theorem lookupA_mem {α β : Type} [DecidableEq α] {m : List (α × β)} {a : α} {b : β}
    (h : lookupA m a = some b) : (a, b) ∈ m := by
  induction m with
  | nil => simp [lookupA] at h
  | cons hd tl ih =>
    obtain ⟨k, v⟩ := hd
    by_cases hk : k = a
    · subst hk
      simp [lookupA] at h
      simp [h]
    · simp [lookupA, hk] at h
      simp [ih h]

theorem mem_of_mem_removeA {α β : Type} [DecidableEq α] {m : List (α × β)} {a : α}
    {p : α × β} (h : p ∈ removeA m a) : p ∈ m := by
  induction m with
  | nil => simp [removeA] at h
  | cons hd tl ih =>
    obtain ⟨k, v⟩ := hd
    by_cases hk : k = a
    · simp [removeA, hk] at h
      simp [ih h]
    · simp [removeA, hk] at h
      rcases h with h | h
      · simp [h]
      · simp [ih h]

theorem mem_insertA {α β : Type} [DecidableEq α] {m : List (α × β)} {a : α} {b : β}
    {p : α × β} (h : p ∈ insertA m a b) : p ∈ m ∨ p = (a, b) := by
  induction m with
  | nil => simp [insertA] at h; simp [h]
  | cons hd tl ih =>
    obtain ⟨k, v⟩ := hd
    by_cases hk : k = a
    · subst hk
      simp [insertA] at h
      rcases h with h | h
      · right; simp [h]
      · left; simp [h]
    · simp [insertA, hk] at h
      rcases h with h | h
      · left; simp [h]
      · rcases ih h with h' | h'
        · left; simp [h']
        · right; exact h'

theorem gpuCreate_wf {g : GpuDataManagerState} (h : GpuWF g) : GpuWF (gpuCreate g).2 := by
  intro p hp
  simp only [gpuCreate] at hp ⊢
  rcases mem_insertA hp with h' | h'
  · exact Nat.lt_succ_of_lt (h p h')
  · simp [h']

theorem gpuCreate_mono {g : GpuDataManagerState} (h : GpuWF g) :
    gpuLiveMono g (gpuCreate g).2 := by
  intro id d hid
  have hlt : id < g.nextId := by
    have := h _ (lookupA_mem hid)
    simpa using this
  simp only [gpuCreate]
  rw [lookupA_insertA_ne]
  · exact hid
  · exact fun he => absurd he.symm (Nat.ne_of_lt hlt)

theorem gpuLiveMono_refl (g : GpuDataManagerState) : gpuLiveMono g g := fun _ _ h => h

theorem gpuLiveMono_trans {g1 g2 g3 : GpuDataManagerState}
    (h12 : gpuLiveMono g1 g2) (h23 : gpuLiveMono g2 g3) : gpuLiveMono g1 g3 :=
  fun id d h => h23 id d (h12 id d h)



theorem outputsStep_invalid (n : Nat) (idx : Int) (od : OutputDesc) (s : BState)
    (hv : idx < -2 ∨ (n : Int) ≤ idx) :
    Jsep.outputsStep n idx od s = (.error (.invalidOutputIndex idx), s) := by
  simp [Jsep.outputsStep, hv]

theorem outputsStep_frame (n : Nat) (idx : Int) (od : OutputDesc) (s : BState) :
    (Jsep.outputsStep n idx od s).2.artifacts = s.artifacts ∧
    (Jsep.outputsStep n idx od s).2.buildCount = s.buildCount ∧
    (Jsep.outputsStep n idx od s).2.currentKernelId = s.currentKernelId ∧
    (Jsep.outputsStep n idx od s).2.kernels = s.kernels ∧
    (Jsep.outputsStep n idx od s).2.lastRunArtifact = s.lastRunArtifact ∧
    (Jsep.outputsStep n idx od s).2.submittedLog = s.submittedLog ∧
    (Jsep.outputsStep n idx od s).2.commandEncoder = s.commandEncoder ∧
    (Jsep.outputsStep n idx od s).2.computePassEncoder = s.computePassEncoder ∧
    (Jsep.outputsStep n idx od s).2.pendingDispatchNumber = s.pendingDispatchNumber ∧
    (Jsep.outputsStep n idx od s).2.gpu.released = s.gpu.released ∧
    (Jsep.outputsStep n idx od s).2.gpu.pendingBuffers = s.gpu.pendingBuffers := by
  by_cases hv : idx < -2 ∨ (n : Int) ≤ idx
  · simp [Jsep.outputsStep, hv]
  · push_neg at hv
    by_cases ht : idx = -2
    · subst ht
      simp [Jsep.outputsStep, Jsep.createOutputTV, gpuCreate, gpuGet, lookupA_insertA_self,
        not_le.mpr hv.2]
    · by_cases hp : idx = -1
      · subst hp
        simp [Jsep.outputsStep, Jsep.createOutputTV, gpuCreate, gpuGet, lookupA_insertA_self,
          not_le.mpr hv.2]
      · simp [Jsep.outputsStep, Jsep.createOutputTV, gpuCreate, gpuGet, lookupA_insertA_self,
          not_lt.mpr hv.1, not_le.mpr hv.2, ht, hp]

theorem outputsStep_temp (n : Nat) (idx : Int) (od : OutputDesc) (s : BState) :
    ∃ t : List GpuData,
      (Jsep.outputsStep n idx od s).2.temporaryData = s.temporaryData ++ t ∧
      (Jsep.outputsStep n idx od s).2.tempAllocLog = s.tempAllocLog ++ t.map (·.id) := by
  by_cases hv : idx < -2 ∨ (n : Int) ≤ idx
  · exact ⟨[], by simp [Jsep.outputsStep, hv]⟩
  · push_neg at hv
    by_cases ht : idx = -2
    · subst ht
      refine ⟨[{ id := s.gpu.nextId, type := 0 }], ?_⟩
      simp [Jsep.outputsStep, Jsep.createOutputTV, gpuCreate, gpuGet, lookupA_insertA_self,
        not_le.mpr hv.2]
    · refine ⟨[], ?_⟩
      by_cases hp : idx = -1
      · subst hp
        simp [Jsep.outputsStep, Jsep.createOutputTV, gpuCreate, gpuGet, lookupA_insertA_self,
          not_le.mpr hv.2]
      · simp [Jsep.outputsStep, Jsep.createOutputTV, gpuCreate, gpuGet, lookupA_insertA_self,
          not_lt.mpr hv.1, not_le.mpr hv.2, ht, hp]

theorem outputsStep_kpd (n : Nat) (idx : Int) (od : OutputDesc) (s : BState) (key : Option Nat) :
    ∃ u, lookupD (Jsep.outputsStep n idx od s).2.kernelPersistentData key =
      lookupD s.kernelPersistentData key ++ u := by
  by_cases hv : idx < -2 ∨ (n : Int) ≤ idx
  · exact ⟨[], by simp [Jsep.outputsStep, hv]⟩
  · push_neg at hv
    by_cases hp : idx = -1
    · subst hp
      by_cases hkey : s.currentKernelId = key
      · refine ⟨[{ id := s.gpu.nextId, type := 0 }], ?_⟩
        subst hkey
        simp [Jsep.outputsStep, Jsep.createOutputTV, gpuCreate, gpuGet, lookupA_insertA_self,
          lookupD, not_le.mpr hv.2]
      · refine ⟨[], ?_⟩
        simp [Jsep.outputsStep, Jsep.createOutputTV, gpuCreate, gpuGet, lookupA_insertA_self,
          lookupD, lookupA_insertA_ne _ _ _ _ hkey, not_le.mpr hv.2]
    · refine ⟨[], ?_⟩
      by_cases ht : idx = -2
      · subst ht
        simp [Jsep.outputsStep, Jsep.createOutputTV, gpuCreate, gpuGet, lookupA_insertA_self,
          lookupD, not_le.mpr hv.2]
      · simp [Jsep.outputsStep, Jsep.createOutputTV, gpuCreate, gpuGet, lookupA_insertA_self,
          lookupD, not_lt.mpr hv.1, not_le.mpr hv.2, ht, hp]

theorem outputsStep_gpu (n : Nat) (idx : Int) (od : OutputDesc) (s : BState)
    (hwf : GpuWF s.gpu) :
    GpuWF (Jsep.outputsStep n idx od s).2.gpu ∧
    gpuLiveMono s.gpu (Jsep.outputsStep n idx od s).2.gpu := by
  by_cases hv : idx < -2 ∨ (n : Int) ≤ idx
  · simp only [outputsStep_invalid n idx od s hv]
    exact ⟨hwf, gpuLiveMono_refl _⟩
  · have hgpu : (Jsep.outputsStep n idx od s).2.gpu = (gpuCreate s.gpu).2 := by
      push_neg at hv
      by_cases ht : idx = -2
      · subst ht
        simp [Jsep.outputsStep, Jsep.createOutputTV, gpuCreate, gpuGet, lookupA_insertA_self,
          not_le.mpr hv.2]
      · by_cases hp : idx = -1
        · subst hp
          simp [Jsep.outputsStep, Jsep.createOutputTV, gpuCreate, gpuGet, lookupA_insertA_self,
            not_le.mpr hv.2]
        · simp [Jsep.outputsStep, Jsep.createOutputTV, gpuCreate, gpuGet, lookupA_insertA_self,
            not_lt.mpr hv.1, not_le.mpr hv.2, ht, hp]
    rw [hgpu]
    exact ⟨gpuCreate_wf hwf, gpuCreate_mono hwf⟩

theorem outputsStep_stateFrame (n : Nat) (idx : Int) (od : OutputDesc) (s : BState) :
    stateFrame (Jsep.outputsStep n idx od s).2 = stateFrame s := by
  obtain ⟨h1, h2, h3, h4, h5, h6, h7, h8, h9, h10, h11⟩ := outputsStep_frame n idx od s
  simp [stateFrame, h1, h2, h3, h4, h5, h6, h7, h8, h9, h10, h11]

theorem outputsLoop_stateFrame (n : Nat) (pairs : List (Int × OutputDesc)) (s : BState) :
    stateFrame (Jsep.outputsLoop n pairs s).2 = stateFrame s := by
  induction pairs generalizing s with
  | nil => simp [Jsep.outputsLoop]
  | cons hd rest ih =>
    obtain ⟨idx, od⟩ := hd
    rcases h1 : Jsep.outputsStep n idx od s with ⟨r1, s3⟩
    have hstep := outputsStep_stateFrame n idx od s
    rw [h1] at hstep
    cases r1 with
    | error e => simpa [Jsep.outputsLoop, h1] using hstep
    | ok pr =>
      obtain ⟨tv, gd⟩ := pr
      rcases h2 : Jsep.outputsLoop n rest s3 with ⟨r2, s4⟩
      have hrest := ih s3
      rw [h2] at hrest
      cases r2 with
      | error e => simpa [Jsep.outputsLoop, h1, h2] using hrest.trans hstep
      | ok pr2 =>
        obtain ⟨views, datas⟩ := pr2
        simpa [Jsep.outputsLoop, h1, h2] using hrest.trans hstep

theorem outputsLoop_temp (n : Nat) (pairs : List (Int × OutputDesc)) (s : BState) :
    ∃ t : List GpuData,
      (Jsep.outputsLoop n pairs s).2.temporaryData = s.temporaryData ++ t ∧
      (Jsep.outputsLoop n pairs s).2.tempAllocLog = s.tempAllocLog ++ t.map (·.id) := by
  induction pairs generalizing s with
  | nil => exact ⟨[], by simp [Jsep.outputsLoop]⟩
  | cons hd rest ih =>
    obtain ⟨idx, od⟩ := hd
    rcases h1 : Jsep.outputsStep n idx od s with ⟨r1, s3⟩
    obtain ⟨t1, ht1, ht1'⟩ := outputsStep_temp n idx od s
    rw [h1] at ht1 ht1'
    cases r1 with
    | error e => exact ⟨t1, by simpa [Jsep.outputsLoop, h1] using ⟨ht1, ht1'⟩⟩
    | ok pr =>
      obtain ⟨tv, gd⟩ := pr
      rcases h2 : Jsep.outputsLoop n rest s3 with ⟨r2, s4⟩
      obtain ⟨t2, ht2, ht2'⟩ := ih s3
      rw [h2] at ht2 ht2'
      refine ⟨t1 ++ t2, ?_⟩
      have htd : s4.temporaryData = s.temporaryData ++ (t1 ++ t2) := by
        rw [ht2, ht1, List.append_assoc]
      have hlog : s4.tempAllocLog = s.tempAllocLog ++ (t1.map (·.id) ++ t2.map (·.id)) := by
        rw [ht2', ht1', List.append_assoc]
      cases r2 with
      | error e => simpa [Jsep.outputsLoop, h1, h2] using ⟨htd, hlog⟩
      | ok pr2 =>
        obtain ⟨views, datas⟩ := pr2
        simpa [Jsep.outputsLoop, h1, h2] using ⟨htd, hlog⟩

theorem outputsLoop_kpd (n : Nat) (pairs : List (Int × OutputDesc)) (s : BState)
    (key : Option Nat) :
    ∃ u, lookupD (Jsep.outputsLoop n pairs s).2.kernelPersistentData key =
      lookupD s.kernelPersistentData key ++ u := by
  induction pairs generalizing s with
  | nil => exact ⟨[], by simp [Jsep.outputsLoop]⟩
  | cons hd rest ih =>
    obtain ⟨idx, od⟩ := hd
    rcases h1 : Jsep.outputsStep n idx od s with ⟨r1, s3⟩
    obtain ⟨u1, hu1⟩ := outputsStep_kpd n idx od s key
    rw [h1] at hu1
    cases r1 with
    | error e => exact ⟨u1, by simpa [Jsep.outputsLoop, h1] using hu1⟩
    | ok pr =>
      obtain ⟨tv, gd⟩ := pr
      rcases h2 : Jsep.outputsLoop n rest s3 with ⟨r2, s4⟩
      obtain ⟨u2, hu2⟩ := ih s3
      rw [h2] at hu2
      have hcomb : lookupD s4.kernelPersistentData key =
          lookupD s.kernelPersistentData key ++ (u1 ++ u2) := by
        rw [hu2, hu1, List.append_assoc]
      cases r2 with
      | error e => exact ⟨u1 ++ u2, by simpa [Jsep.outputsLoop, h1, h2] using hcomb⟩
      | ok pr2 =>
        obtain ⟨views, datas⟩ := pr2
        exact ⟨u1 ++ u2, by simpa [Jsep.outputsLoop, h1, h2] using hcomb⟩

theorem outputsLoop_gpu (n : Nat) (pairs : List (Int × OutputDesc)) (s : BState)
    (hwf : GpuWF s.gpu) :
    GpuWF (Jsep.outputsLoop n pairs s).2.gpu ∧
    gpuLiveMono s.gpu (Jsep.outputsLoop n pairs s).2.gpu := by
  induction pairs generalizing s with
  | nil => exact ⟨by simpa [Jsep.outputsLoop] using hwf, by simp [Jsep.outputsLoop]; exact gpuLiveMono_refl _⟩
  | cons hd rest ih =>
    obtain ⟨idx, od⟩ := hd
    rcases h1 : Jsep.outputsStep n idx od s with ⟨r1, s3⟩
    obtain ⟨hwf3, hmono3⟩ := outputsStep_gpu n idx od s hwf
    rw [h1] at hwf3 hmono3
    cases r1 with
    | error e => exact ⟨by simpa [Jsep.outputsLoop, h1] using hwf3,
        by simpa [Jsep.outputsLoop, h1] using hmono3⟩
    | ok pr =>
      obtain ⟨tv, gd⟩ := pr
      rcases h2 : Jsep.outputsLoop n rest s3 with ⟨r2, s4⟩
      obtain ⟨hwf4, hmono4⟩ := ih s3 hwf3
      rw [h2] at hwf4 hmono4
      have hm := gpuLiveMono_trans hmono3 hmono4
      cases r2 with
      | error e => exact ⟨by simpa [Jsep.outputsLoop, h1, h2] using hwf4,
          by simpa [Jsep.outputsLoop, h1, h2] using hm⟩
      | ok pr2 =>
        obtain ⟨views, datas⟩ := pr2
        exact ⟨by simpa [Jsep.outputsLoop, h1, h2] using hwf4,
            by simpa [Jsep.outputsLoop, h1, h2] using hm⟩


theorem EntryInv_refl (s : BState) : EntryInv s s :=
  ⟨rfl, rfl, ⟨[], by simp⟩, fun _ => ⟨[], by simp⟩, ⟨[], by simp⟩⟩

theorem EntryInv_trans {s1 s2 s3 : BState} (h12 : EntryInv s1 s2) (h23 : EntryInv s2 s3) :
    EntryInv s1 s3 := by
  obtain ⟨hm12, hk12, ⟨t12, htd12, htl12⟩, hp12, ⟨r12, hr12⟩⟩ := h12
  obtain ⟨hm23, hk23, ⟨t23, htd23, htl23⟩, hp23, ⟨r23, hr23⟩⟩ := h23
  refine ⟨hm23.trans hm12, hk23.trans hk12, ⟨t12 ++ t23, ?_, ?_⟩, ?_, ⟨r12 ++ r23, ?_⟩⟩
  · rw [htd23, htd12, List.append_assoc]
  · rw [htl23, htl12, List.map_append, List.append_assoc]
  · intro key
    obtain ⟨u12, hu12⟩ := hp12 key
    obtain ⟨u23, hu23⟩ := hp23 key
    exact ⟨u12 ++ u23, by rw [hu23, hu12, List.append_assoc]⟩
  · rw [hr23, hr12, List.append_assoc]

theorem flush_effects (s : BState) :
    (Jsep.flush s).temporaryData = s.temporaryData ∧
    (Jsep.flush s).currentKernelId = s.currentKernelId ∧
    (Jsep.flush s).kernelPersistentData = s.kernelPersistentData ∧
    (Jsep.flush s).kernels = s.kernels ∧
    (Jsep.flush s).artifacts = s.artifacts ∧
    (Jsep.flush s).buildCount = s.buildCount ∧
    (Jsep.flush s).lastRunArtifact = s.lastRunArtifact ∧
    (Jsep.flush s).tempAllocLog = s.tempAllocLog ∧
    (Jsep.flush s).gpu.live = s.gpu.live ∧
    (Jsep.flush s).gpu.released = s.gpu.released ∧
    (Jsep.flush s).gpu.nextId = s.gpu.nextId ∧
    (Jsep.flush s).commandEncoder = none ∧
    (Jsep.flush s).computePassEncoder = false ∧
    (Jsep.flush s).pendingDispatchNumber = 0 := by
  cases hP : s.computePassEncoder <;> rcases hE : s.commandEncoder with _ | cmds <;>
    simp [Jsep.flush, Jsep.endComputePass, Jsep.getCommandEncoder, gpuRefreshPendingBuffers,
      hP, hE]

theorem pmRun_effects (a : Artifact) (dg : List Nat) (s : BState) :
    (Jsep.pmRun a dg s).temporaryData = s.temporaryData ∧
    (Jsep.pmRun a dg s).currentKernelId = s.currentKernelId ∧
    (Jsep.pmRun a dg s).kernelPersistentData = s.kernelPersistentData ∧
    (Jsep.pmRun a dg s).kernels = s.kernels ∧
    (Jsep.pmRun a dg s).artifacts = s.artifacts ∧
    (Jsep.pmRun a dg s).buildCount = s.buildCount ∧
    (Jsep.pmRun a dg s).lastRunArtifact = some a ∧
    (Jsep.pmRun a dg s).tempAllocLog = s.tempAllocLog ∧
    (Jsep.pmRun a dg s).gpu.live = s.gpu.live ∧
    (Jsep.pmRun a dg s).gpu.released = s.gpu.released ∧
    (Jsep.pmRun a dg s).gpu.nextId = s.gpu.nextId := by
  cases hP : s.computePassEncoder <;> rcases hE : s.commandEncoder with _ | cmds <;>
    simp [Jsep.pmRun, Jsep.getComputePassEncoder, Jsep.getCommandEncoder, Jsep.flush,
      Jsep.endComputePass, gpuRefreshPendingBuffers, hP, hE] <;>
    split <;>
    simp [Jsep.flush, Jsep.endComputePass, Jsep.getCommandEncoder, gpuRefreshPendingBuffers]

theorem foldl_gpuRelease_released (t : List GpuData) (g : GpuDataManagerState) :
    (t.foldl (fun g2 (d : GpuData) => gpuRelease g2 d.id) g).released =
      g.released ++ t.map (·.id) := by
  induction t generalizing g with
  | nil => simp
  | cons d rest ih =>
    simp only [List.foldl_cons, List.map_cons]
    rw [ih]
    simp [gpuRelease]


theorem EntryInv_of_fields {s s' : BState} (hm : s'.currentKernelId = s.currentKernelId)
    (hk : s'.kernels = s.kernels) (ht : s'.temporaryData = s.temporaryData)
    (hl : s'.tempAllocLog = s.tempAllocLog)
    (hp : s'.kernelPersistentData = s.kernelPersistentData)
    (hr : s'.gpu.released = s.gpu.released) : EntryInv s s' :=
  ⟨hm, hk, ⟨[], by simp [ht], by simp [hl]⟩, fun key => ⟨[], by simp [hp]⟩,
   ⟨[], by simp [hr]⟩⟩

theorem EntryInv_of_loop (n : Nat) (pairs : List (Int × OutputDesc)) (s : BState) :
    EntryInv s (Jsep.outputsLoop n pairs s).2 := by
  have hframe := outputsLoop_stateFrame n pairs s
  simp only [stateFrame, Prod.mk.injEq] at hframe
  obtain ⟨ha, hb, hm, hk, hla, hsl, hce, hcp, hpd, hrel, hpb⟩ := hframe
  obtain ⟨t, htd, htl⟩ := outputsLoop_temp n pairs s
  exact ⟨hm, hk, ⟨t, htd, htl⟩, outputsLoop_kpd n pairs s, ⟨[], by simp [hrel]⟩⟩

theorem runFinish_entryInv (key : String) (a0 : Option Artifact) (pi : ProgramInfo)
    (inputs : List TensorView) (pr : Except BErr (List TensorView × List GpuData) × BState) :
    EntryInv pr.2 (Jsep.runFinish key a0 pi inputs pr).2 := by
  rcases pr with ⟨r, s1⟩
  cases r with
  | error e => exact EntryInv_refl s1
  | ok v =>
    obtain ⟨views, datas⟩ := v
    cases a0 with
    | some a =>
      obtain ⟨e1, e2, e3, e4, _, _, _, e8, _, e10, _⟩ :=
        pmRun_effects a (a.programInfo.dispatchGroup inputs) s1
      exact EntryInv_of_fields e2 e4 e1 e8 e3 e10
    | none =>
      refine @EntryInv_trans s1
          (Jsep.setArtifact key { programInfo := pi, buildId := s1.buildCount }
            { s1 with buildCount := s1.buildCount + 1 }) _ ?_ ?_
      · exact EntryInv_of_fields rfl rfl rfl rfl rfl rfl
      · obtain ⟨e1, e2, e3, e4, _, _, _, e8, _, e10, _⟩ :=
          pmRun_effects { programInfo := pi, buildId := s1.buildCount }
            (pi.dispatchGroup inputs)
            (Jsep.setArtifact key { programInfo := pi, buildId := s1.buildCount }
              { s1 with buildCount := s1.buildCount + 1 })
        exact EntryInv_of_fields e2 e4 e1 e8 e3 e10

theorem run_entryInv (program : ProgramLike) (inputs : List TensorView)
    (outs : List Int) (s : BState) : EntryInv s (Jsep.run program inputs outs s).2 := by
  unfold Jsep.run
  split
  · exact EntryInv_refl s
  · split
    · exact EntryInv_refl s
    · dsimp only
      split
      · exact EntryInv_refl s
      · exact EntryInv_trans (EntryInv_of_loop _ _ s) (runFinish_entryInv _ _ _ _ _)

theorem interp_kern_stuck (fuel kid : Nat) (s : BState) (k0 : Nat)
    (h : s.currentKernelId = some k0) :
    ∃ e, Jsep.interp fuel (.kern kid) s = (.error e, s) := by
  cases fuel with
  | zero => exact ⟨.fuelExhausted, by simp [Jsep.interp]⟩
  | succ f =>
    rcases hk : lookupA s.kernels kid with _ | K
    · exact ⟨.kernelNotCreated kid, by simp [Jsep.interp, hk]⟩
    · exact ⟨.kernelReentrant K.name, by simp [Jsep.interp, hk, h]⟩

theorem flush_entryInv (s : BState) : EntryInv s (Jsep.flush s) := by
  obtain ⟨e1, e2, e3, e4, _, _, _, e8, _, e10, _⟩ := flush_effects s
  exact EntryInv_of_fields e2 e4 e1 e8 e3 e10

theorem free_entryInv (id : Nat) (s : BState) : EntryInv s (Jsep.free id s) :=
  ⟨rfl, rfl, ⟨[], by simp [Jsep.free]⟩, fun _ => ⟨[], by simp [Jsep.free]⟩,
   ⟨[id], by simp [Jsep.free, gpuRelease]⟩⟩

theorem alloc_entryInv (s : BState) : EntryInv s (Jsep.alloc s).2 :=
  ⟨rfl, rfl, ⟨[], by simp [Jsep.alloc, gpuCreate]⟩,
   fun _ => ⟨[], by simp [Jsep.alloc, gpuCreate]⟩,
   ⟨[], by simp [Jsep.alloc, gpuCreate]⟩⟩

theorem interp_prog_entryInv (k : Nat) (fuel : Nat) :
    ∀ (stmts : List KStmt) (s : BState), s.currentKernelId = some k →
      EntryInv s (Jsep.interp fuel (.prog stmts) s).2 := by
  induction fuel with
  | zero =>
    intro stmts s h
    simpa [Jsep.interp] using EntryInv_refl s
  | succ f ih =>
    intro stmts s h
    cases stmts with
    | nil => simpa [Jsep.interp] using EntryInv_refl s
    | cons stmt rest =>
      cases stmt with
      | runOp p ins outs =>
        rcases hr : Jsep.run p ins outs s with ⟨rr, s1⟩
        have hinv : EntryInv s s1 := by
          have h2 := run_entryInv p ins outs s
          rwa [hr] at h2
        have hm1 : s1.currentKernelId = some k := by rw [hinv.1, h]
        cases rr with
        | error e => simpa [Jsep.interp, hr] using hinv
        | ok v =>
          have htail := ih rest s1 hm1
          simpa [Jsep.interp, hr] using EntryInv_trans hinv htail
      | computeK kid =>
        obtain ⟨e, he⟩ := interp_kern_stuck f kid s k h
        simpa [Jsep.interp, he] using EntryInv_refl s
      | flushOp =>
        have hinv := flush_entryInv s
        have hm1 : (Jsep.flush s).currentKernelId = some k := by rw [hinv.1, h]
        have htail := ih rest (Jsep.flush s) hm1
        simpa [Jsep.interp] using EntryInv_trans hinv htail
      | allocOp sz =>
        have hinv := alloc_entryInv s
        have hm1 : (Jsep.alloc s).2.currentKernelId = some k := by rw [hinv.1, h]
        have htail := ih rest (Jsep.alloc s).2 hm1
        simpa [Jsep.interp] using EntryInv_trans hinv htail
      | freeOp id =>
        have hinv := free_entryInv id s
        have hm1 : (Jsep.free id s).currentKernelId = some k := by rw [hinv.1, h]
        have htail := ih rest (Jsep.free id s) hm1
        simpa [Jsep.interp] using EntryInv_trans hinv htail
      | throwOp =>
        simpa [Jsep.interp] using EntryInv_refl s


theorem kernReturn_fields (ret : Int) (pr : Except BErr Int × BState) :
    (Jsep.kernReturn ret pr).2.currentKernelId = none ∧
    (Jsep.kernReturn ret pr).2.temporaryData = [] ∧
    (Jsep.kernReturn ret pr).2.tempAllocLog = pr.2.tempAllocLog ∧
    (Jsep.kernReturn ret pr).2.kernelPersistentData = pr.2.kernelPersistentData ∧
    (Jsep.kernReturn ret pr).2.kernels = pr.2.kernels ∧
    (Jsep.kernReturn ret pr).2.gpu.released =
      pr.2.gpu.released ++ pr.2.temporaryData.map (·.id) := by
  rcases pr with ⟨r, s4⟩
  cases r <;> simp [Jsep.kernReturn, foldl_gpuRelease_released]

theorem kernReturn_fst (ret : Int) (pr : Except BErr Int × BState) :
    (Jsep.kernReturn ret pr).1 = match pr.1 with
      | .ok _ => .ok ret
      | .error e => .error e := by
  rcases pr with ⟨r, s4⟩
  cases r <;> simp [Jsep.kernReturn]

theorem computeKernel_eq (fuel kid : Nat) (s : BState) (K : Kernel)
    (hl : lookupA s.kernels kid = some K) (hm : s.currentKernelId = none) :
    Jsep.computeKernel (fuel + 1) kid s =
      Jsep.kernReturn K.entry.ret
        (Jsep.interp fuel (.prog K.entry.stmts) (kernStart kid K s)) := by
  cases hap : K.attrParse with
  | none => simp [Jsep.computeKernel, Jsep.interp, kernStart, hl, hm, hap]
  | some parse => simp [Jsep.computeKernel, Jsep.interp, kernStart, hl, hm, hap]

theorem computeKernel_cleanup (fuel kid : Nat) (s : BState) (K : Kernel)
    (hl : lookupA s.kernels kid = some K) (hm : s.currentKernelId = none) :
    (Jsep.computeKernel (fuel + 1) kid s).2.currentKernelId = none ∧
    (Jsep.computeKernel (fuel + 1) kid s).2.temporaryData = [] ∧
    ∃ t : List Nat,
      (Jsep.computeKernel (fuel + 1) kid s).2.tempAllocLog = s.tempAllocLog ++ t ∧
      ∀ i ∈ t, i ∈ (Jsep.computeKernel (fuel + 1) kid s).2.gpu.released := by
  rw [computeKernel_eq fuel kid s K hl hm]
  rcases hbody : Jsep.interp fuel (.prog K.entry.stmts) (kernStart kid K s) with ⟨r, s4⟩
  have hinv := interp_prog_entryInv kid fuel K.entry.stmts (kernStart kid K s)
    (by simp [kernStart])
  rw [hbody] at hinv
  obtain ⟨hm4, hk4, ⟨t, htd, htl⟩, hkpd4, hrel4⟩ := hinv
  obtain ⟨f1, f2, f3, f4, f5, f6⟩ := kernReturn_fields K.entry.ret (r, s4)
  refine ⟨f1, f2, t.map (·.id), ?_, ?_⟩
  · rw [f3]
    simpa [kernStart] using htl
  · intro i hi
    rw [f6]
    have htd' : s4.temporaryData = t := by simpa [kernStart] using htd
    rw [htd']
    exact List.mem_append_right _ hi


theorem run_arity (program : ProgramLike) (inputs : List TensorView) (outs : List Int)
    (s : BState) (h : inputs.length ≠ program.inputTypes.length) :
    Jsep.run program inputs outs s =
      (.error (.inputSizeMismatch program.inputTypes.length), s) := by
  simp [Jsep.run, h]

theorem outputsStep_valid_ok (n : Nat) (idx : Int) (od : OutputDesc) (s : BState)
    (hv : ¬(idx < -2 ∨ (n : Int) ≤ idx)) :
    ∃ tv gd, (Jsep.outputsStep n idx od s).1 = .ok (tv, gd) := by
  have hv' := hv
  push_neg at hv'
  refine ⟨{ data := s.gpu.nextId, dims := od.dims, dataType := od.dataType },
    { id := s.gpu.nextId, type := 0 }, ?_⟩
  by_cases ht : idx = -2
  · subst ht
    simp [Jsep.outputsStep, Jsep.createOutputTV, gpuCreate, gpuGet, lookupA_insertA_self,
      not_le.mpr hv'.2]
  · by_cases hp : idx = -1
    · subst hp
      simp [Jsep.outputsStep, Jsep.createOutputTV, gpuCreate, gpuGet, lookupA_insertA_self,
        not_le.mpr hv'.2]
    · simp [Jsep.outputsStep, Jsep.createOutputTV, gpuCreate, gpuGet, lookupA_insertA_self,
        not_lt.mpr hv'.1, not_le.mpr hv'.2, ht, hp]

theorem outputsLoop_ok_valid (n : Nat) (pairs : List (Int × OutputDesc)) (s : BState)
    (views : List TensorView) (datas : List GpuData) (s4 : BState)
    (h : Jsep.outputsLoop n pairs s = (.ok (views, datas), s4)) :
    ∀ p ∈ pairs, ¬(p.1 < -2 ∨ (n : Int) ≤ p.1) := by
  induction pairs generalizing s views datas s4 with
  | nil => simp
  | cons hd rest ih =>
    obtain ⟨idx, od⟩ := hd
    by_cases hv : idx < -2 ∨ (n : Int) ≤ idx
    · exfalso
      rw [show Jsep.outputsLoop n ((idx, od) :: rest) s =
          (.error (.invalidOutputIndex idx), s) from by
        simp [Jsep.outputsLoop, outputsStep_invalid n idx od s hv]] at h
      simp at h
    · intro p hp
      rw [List.mem_cons] at hp
      rcases hp with hp | hp
      · subst hp
        exact hv
      · rcases hstep : Jsep.outputsStep n idx od s with ⟨r1, s3⟩
        obtain ⟨tv, gd, hr1⟩ := outputsStep_valid_ok n idx od s hv
        rw [hstep] at hr1
        simp only [] at hr1
        subst hr1
        rw [show Jsep.outputsLoop n ((idx, od) :: rest) s =
            (match Jsep.outputsLoop n rest s3 with
              | (.ok (vs, ds), s4') => (.ok (tv :: vs, gd :: ds), s4')
              | (.error e, s4') => (.error e, s4')) from by
          simp [Jsep.outputsLoop, hstep]] at h
        rcases h2 : Jsep.outputsLoop n rest s3 with ⟨r2, s4'⟩
        rw [h2] at h
        cases r2 with
        | error e => simp at h
        | ok pr2 =>
          obtain ⟨vs, ds⟩ := pr2
          simp only [Prod.mk.injEq, Except.ok.injEq] at h
          obtain ⟨⟨hA, hB⟩, hC⟩ := h
          subst hC
          exact ih s3 vs ds s4' h2 p hp

theorem outputsLoop_ok_of_valid (n : Nat) (pairs : List (Int × OutputDesc))
    (hv : ∀ p ∈ pairs, ¬(p.1 < -2 ∨ (n : Int) ≤ p.1)) :
    ∀ s : BState, ∃ views datas s4,
      Jsep.outputsLoop n pairs s = (.ok (views, datas), s4) ∧
      views.length = pairs.length := by
  induction pairs with
  | nil => intro s; exact ⟨[], [], s, by simp [Jsep.outputsLoop], rfl⟩
  | cons hd rest ih =>
    intro s
    obtain ⟨idx, od⟩ := hd
    have hhd : ¬(idx < -2 ∨ (n : Int) ≤ idx) := hv (idx, od) (by simp)
    rcases hstep : Jsep.outputsStep n idx od s with ⟨r1, s3⟩
    obtain ⟨tv, gd, hr1⟩ := outputsStep_valid_ok n idx od s hhd
    rw [hstep] at hr1
    simp only [] at hr1
    subst hr1
    obtain ⟨views, datas, s4, hloop, hlen⟩ := ih (fun p hp => hv p (by simp [hp])) s3
    exact ⟨tv :: views, gd :: datas, s4, by simp [Jsep.outputsLoop, hstep, hloop],
      by simp [hlen]⟩

theorem runFinish_error (key : String) (a0 : Option Artifact) (pi : ProgramInfo)
    (inputs : List TensorView) (e : BErr) (s1 : BState) :
    Jsep.runFinish key a0 pi inputs (.error e, s1) = (.error e, s1) := by
  simp [Jsep.runFinish]

theorem runFinish_hit (key : String) (a : Artifact) (pi : ProgramInfo)
    (inputs : List TensorView) (views : List TensorView) (datas : List GpuData) (s1 : BState) :
    (Jsep.runFinish key (some a) pi inputs (.ok (views, datas), s1)).1 = .ok views ∧
    (Jsep.runFinish key (some a) pi inputs (.ok (views, datas), s1)).2.artifacts =
      s1.artifacts ∧
    (Jsep.runFinish key (some a) pi inputs (.ok (views, datas), s1)).2.buildCount =
      s1.buildCount ∧
    (Jsep.runFinish key (some a) pi inputs (.ok (views, datas), s1)).2.lastRunArtifact =
      some a ∧
    (Jsep.runFinish key (some a) pi inputs (.ok (views, datas), s1)).2.gpu.live =
      s1.gpu.live ∧
    (Jsep.runFinish key (some a) pi inputs (.ok (views, datas), s1)).2.gpu.nextId =
      s1.gpu.nextId ∧
    (Jsep.runFinish key (some a) pi inputs (.ok (views, datas), s1)).2.kernelPersistentData =
      s1.kernelPersistentData ∧
    (Jsep.runFinish key (some a) pi inputs (.ok (views, datas), s1)).2.currentKernelId =
      s1.currentKernelId := by
  obtain ⟨e1, e2, e3, e4, e5, e6, e7, e8, e9, e10, e11⟩ :=
    pmRun_effects a (a.programInfo.dispatchGroup inputs) s1
  exact ⟨by simp [Jsep.runFinish], by simpa [Jsep.runFinish] using e5,
    by simpa [Jsep.runFinish] using e6, by simpa [Jsep.runFinish] using e7,
    by simpa [Jsep.runFinish] using e9, by simpa [Jsep.runFinish] using e11,
    by simpa [Jsep.runFinish] using e3, by simpa [Jsep.runFinish] using e2⟩

theorem runFinish_miss (key : String) (pi : ProgramInfo)
    (inputs : List TensorView) (views : List TensorView) (datas : List GpuData) (s1 : BState) :
    (Jsep.runFinish key none pi inputs (.ok (views, datas), s1)).1 = .ok views ∧
    (Jsep.runFinish key none pi inputs (.ok (views, datas), s1)).2.artifacts =
      insertA s1.artifacts key { programInfo := pi, buildId := s1.buildCount } ∧
    (Jsep.runFinish key none pi inputs (.ok (views, datas), s1)).2.buildCount =
      s1.buildCount + 1 ∧
    (Jsep.runFinish key none pi inputs (.ok (views, datas), s1)).2.lastRunArtifact =
      some { programInfo := pi, buildId := s1.buildCount } ∧
    (Jsep.runFinish key none pi inputs (.ok (views, datas), s1)).2.gpu.live =
      s1.gpu.live ∧
    (Jsep.runFinish key none pi inputs (.ok (views, datas), s1)).2.gpu.nextId =
      s1.gpu.nextId ∧
    (Jsep.runFinish key none pi inputs (.ok (views, datas), s1)).2.kernelPersistentData =
      s1.kernelPersistentData ∧
    (Jsep.runFinish key none pi inputs (.ok (views, datas), s1)).2.currentKernelId =
      s1.currentKernelId := by
  obtain ⟨e1, e2, e3, e4, e5, e6, e7, e8, e9, e10, e11⟩ :=
    pmRun_effects { programInfo := pi, buildId := s1.buildCount } (pi.dispatchGroup inputs)
      (Jsep.setArtifact key { programInfo := pi, buildId := s1.buildCount }
        { s1 with buildCount := s1.buildCount + 1 })
  refine ⟨by simp [Jsep.runFinish, Jsep.pmBuild], ?_, ?_, ?_, ?_, ?_, ?_, ?_⟩
  · simpa [Jsep.runFinish, Jsep.pmBuild, Jsep.setArtifact] using e5
  · simpa [Jsep.runFinish, Jsep.pmBuild, Jsep.setArtifact] using e6
  · simpa [Jsep.runFinish, Jsep.pmBuild, Jsep.setArtifact] using e7
  · simpa [Jsep.runFinish, Jsep.pmBuild, Jsep.setArtifact] using e9
  · simpa [Jsep.runFinish, Jsep.pmBuild, Jsep.setArtifact] using e11
  · simpa [Jsep.runFinish, Jsep.pmBuild, Jsep.setArtifact] using e3
  · simpa [Jsep.runFinish, Jsep.pmBuild, Jsep.setArtifact] using e2


theorem resolveInputDatas_mono {g g' : GpuDataManagerState} (hm : gpuLiveMono g g')
    (inputs : List TensorView) (datas : List GpuData)
    (h : Jsep.resolveInputDatas g inputs = .ok datas) :
    Jsep.resolveInputDatas g' inputs = .ok datas := by
  induction inputs generalizing datas with
  | nil => simpa [Jsep.resolveInputDatas] using h
  | cons tv rest ih =>
    rcases hg : gpuGet g tv.data with _ | d
    · simp [Jsep.resolveInputDatas, hg] at h
    · have hg' : gpuGet g' tv.data = some d := hm tv.data d hg
      simp only [Jsep.resolveInputDatas, hg] at h
      rcases hrest : Jsep.resolveInputDatas g rest with e | ds
      · rw [hrest] at h
        simp [Except.map] at h
      · rw [hrest] at h
        simp only [Except.map, Except.ok.injEq] at h
        subst h
        simp [Jsep.resolveInputDatas, hg', ih ds hrest, Except.map]

theorem outputsStep_persist (n : Nat) (idx : Int) (od : OutputDesc) (s : BState)
    (hv : ¬(idx < -2 ∨ (n : Int) ≤ idx)) :
    (idx = -1 →
      lookupD (Jsep.outputsStep n idx od s).2.kernelPersistentData s.currentKernelId =
        lookupD s.kernelPersistentData s.currentKernelId ++ [{ id := s.gpu.nextId, type := 0 }]) ∧
    (idx ≠ -1 →
      (Jsep.outputsStep n idx od s).2.kernelPersistentData = s.kernelPersistentData) := by
  have hv' := hv
  push_neg at hv'
  constructor
  · intro hp
    subst hp
    simp [Jsep.outputsStep, Jsep.createOutputTV, gpuCreate, gpuGet, lookupA_insertA_self,
      lookupD, not_le.mpr hv'.2]
  · intro hp
    by_cases ht : idx = -2
    · subst ht
      simp [Jsep.outputsStep, Jsep.createOutputTV, gpuCreate, gpuGet, lookupA_insertA_self,
        not_le.mpr hv'.2]
    · simp [Jsep.outputsStep, Jsep.createOutputTV, gpuCreate, gpuGet, lookupA_insertA_self,
        not_lt.mpr hv'.1, not_le.mpr hv'.2, ht, hp]

theorem outputsLoop_persist_count (n : Nat) (pairs : List (Int × OutputDesc)) :
    ∀ (s : BState) (views : List TensorView) (datas : List GpuData) (s4 : BState),
      Jsep.outputsLoop n pairs s = (.ok (views, datas), s4) →
      ∃ u, lookupD s4.kernelPersistentData s.currentKernelId =
        lookupD s.kernelPersistentData s.currentKernelId ++ u ∧
        u.length = (pairs.filter (fun p => p.1 = -1)).length := by
  induction pairs with
  | nil =>
    intro s views datas s4 h
    simp only [Jsep.outputsLoop, Prod.mk.injEq] at h
    exact ⟨[], by simp [h.2]⟩
  | cons hd rest ih =>
    intro s views datas s4 h
    obtain ⟨idx, od⟩ := hd
    have hv : ¬(idx < -2 ∨ (n : Int) ≤ idx) :=
      outputsLoop_ok_valid n _ s views datas s4 h (idx, od) (by simp)
    rcases hstep : Jsep.outputsStep n idx od s with ⟨r1, s3⟩
    obtain ⟨tv, gd, hr1⟩ := outputsStep_valid_ok n idx od s hv
    rw [hstep] at hr1
    simp only [] at hr1
    subst hr1
    have hmark : s3.currentKernelId = s.currentKernelId := by
      have := (outputsStep_frame n idx od s).2.2.1
      rwa [hstep] at this
    rw [show Jsep.outputsLoop n ((idx, od) :: rest) s =
        (match Jsep.outputsLoop n rest s3 with
          | (.ok (vs, ds), s4') => (.ok (tv :: vs, gd :: ds), s4')
          | (.error e, s4') => (.error e, s4')) from by
      simp [Jsep.outputsLoop, hstep]] at h
    rcases h2 : Jsep.outputsLoop n rest s3 with ⟨r2, s4'⟩
    rw [h2] at h
    cases r2 with
    | error e => simp at h
    | ok pr2 =>
      obtain ⟨vs, ds⟩ := pr2
      simp only [Prod.mk.injEq, Except.ok.injEq] at h
      obtain ⟨⟨hA, hB⟩, hC⟩ := h
      subst hC
      obtain ⟨u2, hu2, hu2len⟩ := ih s3 vs ds s4' h2
      obtain ⟨hper1, hper2⟩ := outputsStep_persist n idx od s hv
      by_cases hpidx : idx = -1
      · have hstep1 := hper1 hpidx
        rw [hstep] at hstep1
        refine ⟨{ id := s.gpu.nextId, type := 0 } :: u2, ?_, ?_⟩
        · rw [hmark] at hu2
          rw [hu2, hstep1]
          simp
        · simp [hpidx, hu2len]
      · have hstep2 := hper2 hpidx
        rw [hstep] at hstep2
        refine ⟨u2, ?_, ?_⟩
        · rw [hmark] at hu2
          rw [hu2, hstep2]
        · simp [hpidx, hu2len]


theorem finishLoop_rich (key : String) (a0 : Option Artifact) (pi : ProgramInfo)
    (inputs : List TensorView) (s : BState) (n : Nat) (pairs : List (Int × OutputDesc))
    (datas : List GpuData)
    (hwf : GpuWF s.gpu)
    (hres : Jsep.resolveInputDatas s.gpu inputs = .ok datas)
    (hvalid : ∀ p ∈ pairs, ¬(p.1 < -2 ∨ (n : Int) ≤ p.1))
    (ha0 : Jsep.getArtifact s key = a0)
    (hhitpi : ∀ a, a0 = some a → a.programInfo = pi) :
    ∃ views s' a,
      Jsep.runFinish key a0 pi inputs (Jsep.outputsLoop n pairs s) = (.ok views, s') ∧
      views.length = pairs.length ∧
      Jsep.getArtifact s' key = some a ∧
      s'.lastRunArtifact = some a ∧
      a.programInfo = pi ∧
      (∀ a0', a0 = some a0' → a = a0' ∧ s'.buildCount = s.buildCount) ∧
      GpuWF s'.gpu ∧
      gpuLiveMono s.gpu s'.gpu ∧
      Jsep.resolveInputDatas s'.gpu inputs = .ok datas ∧
      s'.currentKernelId = s.currentKernelId ∧
      (∃ u, lookupD s'.kernelPersistentData s.currentKernelId =
        lookupD s.kernelPersistentData s.currentKernelId ++ u ∧
        u.length = (pairs.filter (fun p => p.1 = -1)).length) := by
  obtain ⟨views, ldatas, s4, hloop, hlen⟩ := outputsLoop_ok_of_valid n pairs hvalid s
  have hframe := outputsLoop_stateFrame n pairs s
  rw [hloop] at hframe
  simp only [stateFrame, Prod.mk.injEq] at hframe
  obtain ⟨hfa, hfb, hfm, hfk, hfl, hfs, hfc, hfp, hfpd, hfrel, hfpb⟩ := hframe
  obtain ⟨hwf4, hmono4⟩ := outputsLoop_gpu n pairs s hwf
  rw [hloop] at hwf4 hmono4
  obtain ⟨u, hu, hulen⟩ := outputsLoop_persist_count n pairs s views ldatas s4 hloop
  rw [hloop]
  cases a0 with
  | none =>
    obtain ⟨m1, m2, m3, m4, m5, m6, m7, m8⟩ := runFinish_miss key pi inputs views ldatas s4
    have hmono : gpuLiveMono s.gpu
        (Jsep.runFinish key none pi inputs (.ok (views, ldatas), s4)).2.gpu := by
      intro id d h
      have h4 := hmono4 id d h
      rw [m5]
      exact h4
    refine ⟨views, (Jsep.runFinish key none pi inputs (.ok (views, ldatas), s4)).2,
      { programInfo := pi, buildId := s4.buildCount }, ?_, hlen, ?_, m4, rfl, ?_, ?_, hmono,
      ?_, ?_, ?_⟩
    · exact Prod.ext m1 rfl
    · show lookupA _ key = _
      rw [show (Jsep.runFinish key none pi inputs (.ok (views, ldatas), s4)).2.artifacts =
          insertA s4.artifacts key { programInfo := pi, buildId := s4.buildCount } from m2]
      exact lookupA_insertA_self _ _ _
    · intro a0' h
      exact absurd h (by simp)
    · intro p hp
      rw [m5] at hp
      rw [m6]
      exact hwf4 p hp
    · exact resolveInputDatas_mono hmono inputs datas hres
    · rw [m8, hfm]
    · refine ⟨u, ?_, hulen⟩
      unfold lookupD at hu ⊢
      rw [m7]
      exact hu
  | some a00 =>
    obtain ⟨m1, m2, m3, m4, m5, m6, m7, m8⟩ := runFinish_hit key a00 pi inputs views ldatas s4
    have hmono : gpuLiveMono s.gpu
        (Jsep.runFinish key (some a00) pi inputs (.ok (views, ldatas), s4)).2.gpu := by
      intro id d h
      have h4 := hmono4 id d h
      rw [m5]
      exact h4
    refine ⟨views, (Jsep.runFinish key (some a00) pi inputs (.ok (views, ldatas), s4)).2,
      a00, ?_, hlen, ?_, m4, hhitpi a00 rfl, ?_, ?_, hmono, ?_, ?_, ?_⟩
    · exact Prod.ext m1 rfl
    · show lookupA _ key = _
      rw [show (Jsep.runFinish key (some a00) pi inputs (.ok (views, ldatas), s4)).2.artifacts =
          s4.artifacts from m2, hfa]
      exact ha0
    · intro a0' h
      refine ⟨by simpa using h, ?_⟩
      rw [m3, hfb]
    · intro p hp
      rw [m5] at hp
      rw [m6]
      exact hwf4 p hp
    · exact resolveInputDatas_mono hmono inputs datas hres
    · rw [m8, hfm]
    · refine ⟨u, ?_, hulen⟩
      unfold lookupD at hu ⊢
      rw [m7]
      exact hu


theorem run_rich (program : ProgramLike) (inputs : List TensorView) (outs : List Int)
    (s : BState) (datas : List GpuData) (pi : ProgramInfo) (n : Nat)
    (hpi : pi = Jsep.resolvedInfo (Jsep.getArtifact s (runKey program inputs datas)) program)
    (hn : n = pi.outputs.length)
    (hwf : GpuWF s.gpu)
    (harity : inputs.length = program.inputTypes.length)
    (hres : Jsep.resolveInputDatas s.gpu inputs = .ok datas)
    (hcount : (Jsep.validatedIndices outs n).length = n)
    (hvalid : ∀ p ∈ (Jsep.validatedIndices outs n).zip pi.outputs,
      ¬(p.1 < -2 ∨ (n : Int) ≤ p.1)) :
    ∃ views s' a,
      Jsep.run program inputs outs s = (.ok views, s') ∧
      views.length = n ∧
      Jsep.getArtifact s' (runKey program inputs datas) = some a ∧
      s'.lastRunArtifact = some a ∧
      a.programInfo = pi ∧
      (∀ a0, Jsep.getArtifact s (runKey program inputs datas) = some a0 →
        a = a0 ∧ s'.buildCount = s.buildCount) ∧
      GpuWF s'.gpu ∧ gpuLiveMono s.gpu s'.gpu ∧
      Jsep.resolveInputDatas s'.gpu inputs = .ok datas ∧
      s'.currentKernelId = s.currentKernelId ∧
      (∃ u, lookupD s'.kernelPersistentData s.currentKernelId =
        lookupD s.kernelPersistentData s.currentKernelId ++ u ∧
        u.length = (((Jsep.validatedIndices outs n).zip pi.outputs).filter
          (fun p => p.1 = -1)).length) := by
  subst hpi
  subst hn
  have hcount' := hcount
  simp only [runKey] at hcount'
  have hcompute : Jsep.run program inputs outs s =
      Jsep.runFinish (runKey program inputs datas)
        (Jsep.getArtifact s (runKey program inputs datas))
        (Jsep.resolvedInfo (Jsep.getArtifact s (runKey program inputs datas)) program) inputs
        (Jsep.outputsLoop
          (Jsep.resolvedInfo (Jsep.getArtifact s
            (runKey program inputs datas)) program).outputs.length
          ((Jsep.validatedIndices outs
            (Jsep.resolvedInfo (Jsep.getArtifact s
              (runKey program inputs datas)) program).outputs.length).zip
            (Jsep.resolvedInfo (Jsep.getArtifact s
              (runKey program inputs datas)) program).outputs) s) := by
    unfold Jsep.run
    rw [if_neg (by simp [harity])]
    simp only [hres]
    rw [if_neg (by simp [hcount'])]
    rfl
  obtain ⟨views, s', a, h1, h2, h3, h4, h5, h6, h7, h8, h9, h10, h11⟩ :=
    finishLoop_rich (runKey program inputs datas)
      (Jsep.getArtifact s (runKey program inputs datas))
      (Jsep.resolvedInfo (Jsep.getArtifact s (runKey program inputs datas)) program)
      inputs s
      (Jsep.resolvedInfo (Jsep.getArtifact s (runKey program inputs datas)) program).outputs.length
      ((Jsep.validatedIndices outs
        (Jsep.resolvedInfo (Jsep.getArtifact s
          (runKey program inputs datas)) program).outputs.length).zip
        (Jsep.resolvedInfo (Jsep.getArtifact s (runKey program inputs datas)) program).outputs)
      datas hwf hres hvalid rfl
      (by
        intro a ha
        rw [ha]
        simp [Jsep.resolvedInfo])
  refine ⟨views, s', a, hcompute.trans h1, ?_, h3, h4, h5, h6, h7, h8, h9, h10, h11⟩
  rw [h2, List.length_zip, hcount, Nat.min_self]


theorem computeKernel_marker_clear (fuel kid : Nat) (s : BState)
    (hm : s.currentKernelId = none) :
    (Jsep.computeKernel fuel kid s).2.currentKernelId = none := by
  cases fuel with
  | zero => simpa [Jsep.computeKernel, Jsep.interp] using hm
  | succ f =>
    rcases hk : lookupA s.kernels kid with _ | K
    · simpa [Jsep.computeKernel, Jsep.interp, hk] using hm
    · rw [computeKernel_eq f kid s K hk hm]
      exact (kernReturn_fields _ _).1

theorem computeKernel_kpd_mono (fuel kid : Nat) (s : BState) (key : Option Nat) :
    ∃ u, lookupD (Jsep.computeKernel fuel kid s).2.kernelPersistentData key =
      lookupD s.kernelPersistentData key ++ u := by
  cases fuel with
  | zero => exact ⟨[], by simp [Jsep.computeKernel, Jsep.interp]⟩
  | succ f =>
    rcases hk : lookupA s.kernels kid with _ | K
    · exact ⟨[], by simp [Jsep.computeKernel, Jsep.interp, hk]⟩
    · rcases hm : s.currentKernelId with _ | k0
      · rw [computeKernel_eq f kid s K hk hm]
        rcases hbody : Jsep.interp f (.prog K.entry.stmts) (kernStart kid K s) with ⟨r, s4⟩
        have hinv := interp_prog_entryInv kid f K.entry.stmts (kernStart kid K s)
          (by simp [kernStart])
        rw [hbody] at hinv
        obtain ⟨_, _, _, hkpd, _⟩ := hinv
        obtain ⟨u, hu⟩ := hkpd key
        refine ⟨u, ?_⟩
        have hfld := (kernReturn_fields K.entry.ret (r, s4)).2.2.2.1
        rw [hfld]
        simpa [kernStart] using hu
      · obtain ⟨e, he⟩ := interp_kern_stuck (f + 1) kid s k0 hm
        exact ⟨[], by simp [Jsep.computeKernel, he]⟩

theorem releaseKernel_spec (kid : Nat) (s : BState) :
    (∀ d ∈ lookupD s.kernelPersistentData (some kid),
      d.id ∈ (Jsep.releaseKernel kid s).gpu.released) ∧
    lookupA (Jsep.releaseKernel kid s).kernelPersistentData (some kid) = none ∧
    lookupA (Jsep.releaseKernel kid s).kernels kid = none := by
  rcases hk : lookupA s.kernelPersistentData (some kid) with _ | pd
  · refine ⟨?_, ?_, ?_⟩
    · intro d hd
      simp [lookupD, hk] at hd
    · simp [Jsep.releaseKernel, hk]
    · simp [Jsep.releaseKernel, hk, lookupA_removeA_self]
  · refine ⟨?_, ?_, ?_⟩
    · intro d hd
      simp only [lookupD, hk, Option.getD_some] at hd
      simp [Jsep.releaseKernel, hk, foldl_gpuRelease_released]
      right
      exact ⟨d, hd, rfl⟩
    · simp [Jsep.releaseKernel, hk, lookupA_removeA_self]
    · simp [Jsep.releaseKernel, hk, lookupA_removeA_self]

theorem outputsLoop_invalid (n : Nat) :
    ∀ pairs : List (Int × OutputDesc),
      (∃ p ∈ pairs, p.1 < -2 ∨ (n : Int) ≤ p.1) →
      ∀ s : BState, ∃ j s1,
        Jsep.outputsLoop n pairs s = (.error (.invalidOutputIndex j), s1) ∧
        (j < -2 ∨ (n : Int) ≤ j) := by
  intro pairs
  induction pairs with
  | nil => intro hbad; simp at hbad
  | cons hd rest ih =>
    intro hbad s
    obtain ⟨idx, od⟩ := hd
    by_cases hv : idx < -2 ∨ (n : Int) ≤ idx
    · exact ⟨idx, s, by simp [Jsep.outputsLoop, outputsStep_invalid n idx od s hv], hv⟩
    · have hbad' : ∃ p ∈ rest, p.1 < -2 ∨ (n : Int) ≤ p.1 := by
        obtain ⟨p, hp, hpbad⟩ := hbad
        rw [List.mem_cons] at hp
        rcases hp with hp | hp
        · subst hp
          exact absurd hpbad hv
        · exact ⟨p, hp, hpbad⟩
      rcases hstep : Jsep.outputsStep n idx od s with ⟨r1, s3⟩
      obtain ⟨tv, gd, hr1⟩ := outputsStep_valid_ok n idx od s hv
      rw [hstep] at hr1
      simp only [] at hr1
      subst hr1
      obtain ⟨j, s1, hl, hj⟩ := ih hbad' s3
      exact ⟨j, s1, by simp [Jsep.outputsLoop, hstep, hl], hj⟩

theorem run_output_count (program : ProgramLike) (inputs : List TensorView) (outs : List Int)
    (s : BState) (datas : List GpuData) (pi : ProgramInfo) (n : Nat)
    (hpi : pi = Jsep.resolvedInfo (Jsep.getArtifact s (runKey program inputs datas)) program)
    (hn : n = pi.outputs.length)
    (harity : inputs.length = program.inputTypes.length)
    (hres : Jsep.resolveInputDatas s.gpu inputs = .ok datas)
    (hcount : (Jsep.validatedIndices outs n).length ≠ n) :
    Jsep.run program inputs outs s = (.error (.outputSizeMismatch n), s) := by
  subst hpi
  subst hn
  have hcount' := hcount
  simp only [runKey] at hcount'
  unfold Jsep.run
  rw [if_neg (by simp [harity])]
  simp only [hres]
  rw [if_pos hcount']
  rfl

theorem run_invalid_index (program : ProgramLike) (inputs : List TensorView) (outs : List Int)
    (s : BState) (datas : List GpuData) (pi : ProgramInfo) (n : Nat)
    (hpi : pi = Jsep.resolvedInfo (Jsep.getArtifact s (runKey program inputs datas)) program)
    (hn : n = pi.outputs.length)
    (harity : inputs.length = program.inputTypes.length)
    (hres : Jsep.resolveInputDatas s.gpu inputs = .ok datas)
    (hcount : (Jsep.validatedIndices outs n).length = n)
    (hbad : ∃ p ∈ (Jsep.validatedIndices outs n).zip pi.outputs,
      p.1 < -2 ∨ (n : Int) ≤ p.1) :
    ∃ j s1, Jsep.run program inputs outs s = (.error (.invalidOutputIndex j), s1) ∧
      (j < -2 ∨ (n : Int) ≤ j) := by
  subst hpi
  subst hn
  have hcount' := hcount
  simp only [runKey] at hcount'
  obtain ⟨j, s1, hl, hj⟩ := outputsLoop_invalid _ _ hbad s
  refine ⟨j, s1, ?_, hj⟩
  unfold Jsep.run
  rw [if_neg (by simp [harity])]
  simp only [hres]
  rw [if_neg (by simp [hcount'])]
  have hl' := hl
  simp only [runKey] at hl'
  rw [hl']
  exact runFinish_error _ _ _ _ _ _


theorem validatedIndices_nil_eq (m : Nat) :
    Jsep.validatedIndices [] m = Jsep.validatedIndices ((List.range m).map Int.ofNat) m := by
  by_cases hm : m = 0 <;> simp [Jsep.validatedIndices, hm]

theorem validatedIndices_nil_length (m : Nat) :
    (Jsep.validatedIndices [] m).length = m := by
  simp [Jsep.validatedIndices]

theorem validatedIndices_nil_valid (m : Nat) (ods : List OutputDesc) :
    ∀ p ∈ (Jsep.validatedIndices [] m).zip ods, ¬(p.1 < -2 ∨ (m : Int) ≤ p.1) := by
  intro p hp
  obtain ⟨a, b⟩ := p
  have h1 := (List.of_mem_zip hp).1
  simp only [Jsep.validatedIndices, List.length_nil, reduceIte, List.mem_map,
    List.mem_range] at h1
  obtain ⟨i, him, hia⟩ := h1
  subst hia
  simp only [Int.ofNat_eq_coe]
  rintro (h | h) <;> omega

theorem runKey_congr (p1 p2 : ProgramLike) (inputs1 inputs2 : List TensorView)
    (datas1 datas2 : List GpuData)
    (hname : p2.name = p1.name) (hhint : p2.cacheHint = p1.cacheHint)
    (hdims : inputs2.map (·.dims) = inputs1.map (·.dims))
    (htypes : datas2.map (·.type) = datas1.map (·.type)) :
    runKey p2 inputs2 datas2 = runKey p1 inputs1 datas1 := by
  unfold runKey
  rw [hdims, htypes]
  simp [getProgramInfoUniqueKey, hname, hhint]


/-! ## Claim theorems -/

/-- **C1** — No reentrancy: (1) if the currently-executing marker is set,
invoking any created kernel instance fails with the ConcurrencyViolation
error (`kernel ... is not allowed to be called recursively`) and the
backend state is returned unchanged; (2) after an invocation completes,
by success or failure, the marker is clear; (3) hence a subsequent
invocation of another created instance (here: one whose entry body runs
no statements) succeeds with its entry's return value. -/
theorem c1_no_reentrancy :
    (∀ (fuel kid k0 : Nat) (s : BState) (K : Kernel),
      s.currentKernelId = some k0 → lookupA s.kernels kid = some K →
      Jsep.computeKernel (fuel + 1) kid s = (.error (.kernelReentrant K.name), s)) ∧
    (∀ (fuel kid : Nat) (s : BState), s.currentKernelId = none →
      (Jsep.computeKernel fuel kid s).2.currentKernelId = none) ∧
    (∀ (fuel1 fuel2 kid1 kid2 : Nat) (s : BState) (K2 : Kernel),
      s.currentKernelId = none →
      lookupA (Jsep.computeKernel fuel1 kid1 s).2.kernels kid2 = some K2 →
      K2.entry.stmts = [] →
      (Jsep.computeKernel (fuel2 + 2) kid2 (Jsep.computeKernel fuel1 kid1 s).2).1 =
        .ok K2.entry.ret) := by
  refine ⟨?_, ?_, ?_⟩
  · intro fuel kid k0 s K hm hl
    simp [Jsep.computeKernel, Jsep.interp, hl, hm]
  · intro fuel kid s hm
    exact computeKernel_marker_clear fuel kid s hm
  · intro fuel1 fuel2 kid1 kid2 s K2 hm hl2 hstmts
    have hm' := computeKernel_marker_clear fuel1 kid1 s hm
    rw [show fuel2 + 2 = (fuel2 + 1) + 1 from rfl,
      computeKernel_eq (fuel2 + 1) kid2 _ K2 hl2 hm']
    rw [hstmts, kernReturn_fst]
    simp [Jsep.interp]

/-- Witness for C1 at the concrete fixture backend: invoking kernel 2
while kernel 1 is marked executing fails with ConcurrencyViolation and
changes nothing; after invoking kernel 1 (whose entry throws) the marker
is clear and invoking kernel 3 succeeds. -/
theorem c1_no_reentrancy_witness :
    Jsep.computeKernel 5 2 { fixState with currentKernelId := some 1 } =
      (.error (.kernelReentrant "add"), { fixState with currentKernelId := some 1 }) ∧
    (Jsep.computeKernel 5 1 fixState).2.currentKernelId = none ∧
    (Jsep.computeKernel 5 3 (Jsep.computeKernel 5 1 fixState).2).1 = .ok 7 :=
  ⟨c1_no_reentrancy.1 4 2 1 { fixState with currentKernelId := some 1 }
      { name := "add", entry := addEntry, attrParse := none, attr := 0 } rfl rfl,
   c1_no_reentrancy.2.1 5 1 fixState rfl,
   c1_no_reentrancy.2.2 5 3 1 3 fixState
      { name := "empty", entry := emptyEntry, attrParse := none, attr := 0 } rfl rfl rfl⟩

/-- **C2** — Invocation cleanup: for every invocation of a created kernel
instance, whatever the entry body does and whether it returns normally or
throws (the result state is the same on both paths), on exit the
currently-executing marker is clear, `temporaryData` is empty, and every
buffer allocated under the temporary output marker during the invocation
(the ids appended to the `tempAllocLog` instrumentation) has been
released to the gpu-data manager. -/
theorem c2_temporary_cleanup (fuel kid : Nat) (s : BState) (K : Kernel)
    (hl : lookupA s.kernels kid = some K) (hm : s.currentKernelId = none) :
    (Jsep.computeKernel (fuel + 1) kid s).2.currentKernelId = none ∧
    (Jsep.computeKernel (fuel + 1) kid s).2.temporaryData = [] ∧
    ∃ t : List Nat,
      (Jsep.computeKernel (fuel + 1) kid s).2.tempAllocLog = s.tempAllocLog ++ t ∧
      ∀ i ∈ t, i ∈ (Jsep.computeKernel (fuel + 1) kid s).2.gpu.released :=
  computeKernel_cleanup fuel kid s K hl hm

/-- Witness for C2: invoking fixture kernel 1, whose entry allocates a
temporary output and then throws, releases the temporary buffer (id 100)
and clears the marker even though the entry threw. -/
theorem c2_temporary_cleanup_witness :
    (Jsep.computeKernel 5 1 fixState).2.currentKernelId = none ∧
    (Jsep.computeKernel 5 1 fixState).2.temporaryData = [] ∧
    ∃ t : List Nat,
      (Jsep.computeKernel 5 1 fixState).2.tempAllocLog = fixState.tempAllocLog ++ t ∧
      ∀ i ∈ t, i ∈ (Jsep.computeKernel 5 1 fixState).2.gpu.released :=
  c2_temporary_cleanup 4 1 fixState
    { name := "addThrow", entry := throwingEntry, attrParse := none, attr := 0 } rfl rfl


/-- **C4 counterexample** — `flush()` with no open recording session is
not a no-op: on the fixture state (no command encoder, no compute pass)
the jsep `flush` still submits a command buffer to the device queue, so
the submission log changes. -/
theorem c4_flush_not_noop_counterexample :
    (Jsep.flush fixState).submittedLog ≠ fixState.submittedLog := by
  decide

/-- **C4 (amended)** — Calling `flush()` with no open recording session
is not a no-op.  The jsep backend lazily creates an encoder inside
`flush` (`getCommandEncoder()`), finishes it and submits one empty
command buffer; the bookkeeping fields end as they were (encoder cleared,
pass closed, pending counter zero) and the pending-buffer queue is
refreshed.  The onnxjs backend's `flush` dereferences the null encoder
(`this.commandEncoder!.finish()`) and fails. -/
theorem c4_flush_no_session (s : BState) (os : Onnxjs.OState)
    (h1 : s.commandEncoder = none) (h2 : s.computePassEncoder = false)
    (h3 : os.commandEncoder = none) :
    Jsep.flush s = { s with
      submittedLog := s.submittedLog ++ [[]],
      gpu := gpuRefreshPendingBuffers s.gpu,
      pendingDispatchNumber := 0 } ∧
    Onnxjs.flush os = .error .nullCommandEncoder := by
  constructor
  · simp [Jsep.flush, Jsep.endComputePass, Jsep.getCommandEncoder, h1, h2]
  · cases h4 : os.computePassEncoder <;>
      simp [Onnxjs.flush, Onnxjs.endComputePass, h3, h4]

/-- Witness for the amended C4 at the fixture states. -/
theorem c4_flush_no_session_witness :
    Jsep.flush fixState = { fixState with
      submittedLog := fixState.submittedLog ++ [[]],
      gpu := gpuRefreshPendingBuffers fixState.gpu,
      pendingDispatchNumber := 0 } ∧
    Onnxjs.flush fixOState = .error .nullCommandEncoder :=
  c4_flush_no_session fixState fixOState rfl rfl rfl

/-- **C7** — `flush()` with an open recording session closes the compute
pass, submits exactly the recorded commands to the device queue, zeroes
the pending-dispatch counter and clears the recording handle — in the
jsep backend and in the onnxjs backend alike. -/
theorem c7_flush_submits :
    (∀ (s : BState) (cmds : List Cmd), s.commandEncoder = some cmds →
      (Jsep.flush s).computePassEncoder = false ∧
      (Jsep.flush s).commandEncoder = none ∧
      (Jsep.flush s).pendingDispatchNumber = 0 ∧
      (Jsep.flush s).submittedLog = s.submittedLog ++ [cmds]) ∧
    (∀ (os : Onnxjs.OState) (cmds : List Cmd), os.commandEncoder = some cmds →
      Onnxjs.flush os = .ok { os with
        computePassEncoder := false,
        commandEncoder := none,
        pendingDispatchNumber := 0,
        submittedLog := os.submittedLog ++ [cmds] }) := by
  constructor
  · intro s cmds hc
    cases hp : s.computePassEncoder <;>
      simp [Jsep.flush, Jsep.endComputePass, Jsep.getCommandEncoder, hc, hp]
  · intro os cmds hc
    cases hp : os.computePassEncoder <;>
      simp [Onnxjs.flush, Onnxjs.endComputePass, hc, hp]

/-- Witness for C7 at fixture states with an open session containing one
recorded dispatch. -/
theorem c7_flush_submits_witness :
    ((Jsep.flush fixOpenState).computePassEncoder = false ∧
      (Jsep.flush fixOpenState).commandEncoder = none ∧
      (Jsep.flush fixOpenState).pendingDispatchNumber = 0 ∧
      (Jsep.flush fixOpenState).submittedLog =
        fixOpenState.submittedLog ++ [[Cmd.dispatch 0 [1]]]) ∧
    Onnxjs.flush fixOpenOState = .ok { fixOpenOState with
      computePassEncoder := false,
      commandEncoder := none,
      pendingDispatchNumber := 0,
      submittedLog := fixOpenOState.submittedLog ++ [[Cmd.dispatch 0 [1]]] } :=
  ⟨c7_flush_submits.1 fixOpenState [Cmd.dispatch 0 [1]] rfl,
   c7_flush_submits.2 fixOpenOState [Cmd.dispatch 0 [1]] rfl⟩

/-- **C9 counterexample** — the jsep backend's `initialize` does not
return a failure result on an environment without WebGPU: it throws
(`WebGpuBackend: WebGPU is not available.`), modelled as an `Except`
error. -/
theorem c9_initialize_throws_counterexample :
    Jsep.initializeBackend noGpuEnv = .error .webgpuNotAvailable := by
  decide

/-- **C9 (amended)** — Only the onnxjs backend's `initialize` converts
every initialization failure (WebGPU unavailable, no adapter, any error
while acquiring the device — its whole body sits in a try/catch) into a
`false` result for the caller, and on success returns `true` with the
device acquired and the adapter's capability limits negotiated; the jsep
backend's `initialize` instead throws on a missing WebGPU or adapter and
propagates a device-acquisition rejection. -/
theorem c9_initialize_failure_modes :
    (∀ e : GpuEnv, (e.gpuAvailable = false ∨ e.adapterAvailable = false ∨
        e.deviceRequestFails = true) → (Onnxjs.initializeBackend e).1 = false) ∧
    (∀ e : GpuEnv, e.gpuAvailable = true → e.adapterAvailable = true →
      e.deviceRequestFails = false →
      Onnxjs.initializeBackend e = (true, some {
        deviceAcquired := true,
        requiredLimits := (e.maxComputeWorkgroupStorageSize,
          e.maxComputeWorkgroupsPerDimension, e.maxStorageBufferBindingSize),
        profiling := e.hasTimestampQuery,
        querySetCreated := e.hasTimestampQuery })) ∧
    (∀ e : GpuEnv, e.gpuAvailable = false →
      Jsep.initializeBackend e = .error .webgpuNotAvailable) ∧
    (∀ e : GpuEnv, e.gpuAvailable = true → e.adapterAvailable = false →
      Jsep.initializeBackend e = .error .noGpuAdapter) ∧
    (∀ e : GpuEnv, e.gpuAvailable = true → e.adapterAvailable = true →
      e.deviceRequestFails = true →
      Jsep.initializeBackend e = .error .deviceRequestFailed) := by
  refine ⟨?_, ?_, ?_, ?_, ?_⟩
  · intro e h
    rcases h with h | h | h
    · simp [Onnxjs.initializeBackend, h]
    · by_cases hg : e.gpuAvailable <;> simp [Onnxjs.initializeBackend, hg, h]
    · by_cases hg : e.gpuAvailable <;> by_cases ha : e.adapterAvailable <;>
        simp [Onnxjs.initializeBackend, hg, ha, h]
  · intro e h1 h2 h3
    simp [Onnxjs.initializeBackend, h1, h2, h3]
  · intro e h1
    simp [Jsep.initializeBackend, h1]
  · intro e h1 h2
    simp [Jsep.initializeBackend, h1, h2]
  · intro e h1 h2 h3
    simp [Jsep.initializeBackend, h1, h2, h3]

/-- Witness for the amended C9 at concrete environments. -/
theorem c9_initialize_failure_modes_witness :
    (Onnxjs.initializeBackend deviceFailEnv).1 = false ∧
    Onnxjs.initializeBackend okEnv = (true, some {
      deviceAcquired := true,
      requiredLimits := (32768, 65535, 134217728),
      profiling := true,
      querySetCreated := true }) ∧
    Jsep.initializeBackend noGpuEnv = .error .webgpuNotAvailable ∧
    Jsep.initializeBackend noAdapterEnv = .error .noGpuAdapter ∧
    Jsep.initializeBackend deviceFailEnv = .error .deviceRequestFailed :=
  ⟨c9_initialize_failure_modes.1 deviceFailEnv (Or.inr (Or.inr rfl)),
   c9_initialize_failure_modes.2.1 okEnv rfl rfl rfl,
   c9_initialize_failure_modes.2.2.1 noGpuEnv rfl,
   c9_initialize_failure_modes.2.2.2.1 noAdapterEnv rfl rfl,
   c9_initialize_failure_modes.2.2.2.2 deviceFailEnv rfl rfl rfl⟩


/-- **C5** — Input-arity validation: (1) a `run` whose supplied input
count differs from the program's declared input arity fails with the
ShapeMismatch-family error `Input size must be equal to N.` and leaves
the backend state unchanged; (2) when such a `run` is the next statement
of an executing kernel entry, the invocation fails with that error and
afterwards the kernel registry's currently-executing marker is clear. -/
theorem c5_input_arity_mismatch :
    (∀ (program : ProgramLike) (inputs : List TensorView) (outs : List Int) (s : BState),
      inputs.length ≠ program.inputTypes.length →
      Jsep.run program inputs outs s =
        (.error (.inputSizeMismatch program.inputTypes.length), s) ∧
      (BErr.inputSizeMismatch program.inputTypes.length).isShapeMismatch = true) ∧
    (∀ (fuel kid : Nat) (s : BState) (K : Kernel) (program : ProgramLike)
      (inputs : List TensorView) (outs : List Int) (rest : List KStmt),
      lookupA s.kernels kid = some K → s.currentKernelId = none →
      K.entry.stmts = .runOp program inputs outs :: rest →
      inputs.length ≠ program.inputTypes.length →
      (Jsep.computeKernel (fuel + 1 + 1) kid s).1 =
        .error (.inputSizeMismatch program.inputTypes.length) ∧
      (Jsep.computeKernel (fuel + 1 + 1) kid s).2.currentKernelId = none) := by
  constructor
  · intro program inputs outs s h
    exact ⟨run_arity program inputs outs s h, rfl⟩
  · intro fuel kid s K program inputs outs rest hl hm hstmts hbad
    refine ⟨?_, computeKernel_marker_clear (fuel + 1 + 1) kid s hm⟩
    rw [computeKernel_eq (fuel + 1) kid s K hl hm, hstmts, kernReturn_fst]
    have hrr := run_arity program inputs outs (kernStart kid K s) hbad
    simp [Jsep.interp, hrr]

/-- Witness for C5: `run` with one input against the two-input `add`
program fails with the arity error and changes nothing; invoking fixture
kernel 4, whose entry performs exactly that `run`, fails the same way and
leaves the marker clear. -/
theorem c5_input_arity_mismatch_witness :
    (Jsep.run (.info addInfo) [{ data := 10, dims := [2, 3], dataType := 1 }] [0] fixState =
      (.error (.inputSizeMismatch 2), fixState) ∧
      (BErr.inputSizeMismatch 2).isShapeMismatch = true) ∧
    ((Jsep.computeKernel 5 4 fixState).1 = .error (.inputSizeMismatch 2) ∧
      (Jsep.computeKernel 5 4 fixState).2.currentKernelId = none) :=
  ⟨c5_input_arity_mismatch.1 (.info addInfo)
      [{ data := 10, dims := [2, 3], dataType := 1 }] [0] fixState (by decide),
   c5_input_arity_mismatch.2 3 4 fixState
      { name := "badArity", entry := badArityEntry, attrParse := none, attr := 0 }
      (.info addInfo) [{ data := 10, dims := [2, 3], dataType := 1 }] [0] []
      rfl rfl rfl (by decide)⟩

/-- **C6** — Output validation: (1) if the number of requested output
slots differs from the program's declared output count, `run` fails with
the ShapeMismatch-family error `Output size must be equal to N.` and the
backend state is unchanged; (2) if some requested output index is outside
the declared range and is not one of the `-1`/`-2` sentinels, `run` fails
with the ShapeMismatch-family error `Invalid output index`; (3) inside an
invocation such a failure is fatal only to that invocation: the
invocation reports a ShapeMismatch-family error while the
currently-executing marker ends clear and no temporary buffers remain
tracked. -/
theorem c6_output_validation :
    (∀ (program : ProgramLike) (inputs : List TensorView) (outs : List Int) (s : BState)
      (datas : List GpuData) (pi : ProgramInfo) (n : Nat),
      pi = Jsep.resolvedInfo (Jsep.getArtifact s (runKey program inputs datas)) program →
      n = pi.outputs.length →
      inputs.length = program.inputTypes.length →
      Jsep.resolveInputDatas s.gpu inputs = .ok datas →
      (Jsep.validatedIndices outs n).length ≠ n →
      Jsep.run program inputs outs s = (.error (.outputSizeMismatch n), s) ∧
      (BErr.outputSizeMismatch n).isShapeMismatch = true) ∧
    (∀ (program : ProgramLike) (inputs : List TensorView) (outs : List Int) (s : BState)
      (datas : List GpuData) (pi : ProgramInfo) (n : Nat),
      pi = Jsep.resolvedInfo (Jsep.getArtifact s (runKey program inputs datas)) program →
      n = pi.outputs.length →
      inputs.length = program.inputTypes.length →
      Jsep.resolveInputDatas s.gpu inputs = .ok datas →
      (Jsep.validatedIndices outs n).length = n →
      (∃ p ∈ (Jsep.validatedIndices outs n).zip pi.outputs,
        p.1 < -2 ∨ (n : Int) ≤ p.1) →
      ∃ j s1, Jsep.run program inputs outs s = (.error (.invalidOutputIndex j), s1) ∧
        (j < -2 ∨ (n : Int) ≤ j) ∧
        (BErr.invalidOutputIndex j).isShapeMismatch = true) ∧
    (∀ (fuel kid : Nat) (s : BState) (K : Kernel) (program : ProgramLike)
      (inputs : List TensorView) (outs : List Int) (rest : List KStmt)
      (datas : List GpuData) (pi : ProgramInfo) (n : Nat),
      lookupA s.kernels kid = some K → s.currentKernelId = none →
      K.entry.stmts = .runOp program inputs outs :: rest →
      pi = Jsep.resolvedInfo (Jsep.getArtifact s (runKey program inputs datas)) program →
      n = pi.outputs.length →
      inputs.length = program.inputTypes.length →
      Jsep.resolveInputDatas s.gpu inputs = .ok datas →
      (Jsep.validatedIndices outs n).length = n →
      (∃ p ∈ (Jsep.validatedIndices outs n).zip pi.outputs,
        p.1 < -2 ∨ (n : Int) ≤ p.1) →
      ∃ e, (Jsep.computeKernel (fuel + 1 + 1) kid s).1 = .error e ∧
        e.isShapeMismatch = true ∧
        (Jsep.computeKernel (fuel + 1 + 1) kid s).2.currentKernelId = none ∧
        (Jsep.computeKernel (fuel + 1 + 1) kid s).2.temporaryData = []) := by
  refine ⟨?_, ?_, ?_⟩
  · intro program inputs outs s datas pi n hpi hn harity hres hcount
    exact ⟨run_output_count program inputs outs s datas pi n hpi hn harity hres hcount, rfl⟩
  · intro program inputs outs s datas pi n hpi hn harity hres hcount hbad
    obtain ⟨j, s1, hrun, hj⟩ :=
      run_invalid_index program inputs outs s datas pi n hpi hn harity hres hcount hbad
    exact ⟨j, s1, hrun, hj, rfl⟩
  · intro fuel kid s K program inputs outs rest datas pi n hl hm hstmts hpi hn harity
      hres hcount hbad
    have hclean := computeKernel_cleanup (fuel + 1) kid s K hl hm
    obtain ⟨j, s1, hrun, hj⟩ :=
      run_invalid_index program inputs outs (kernStart kid K s) datas pi n hpi hn harity
        hres hcount hbad
    refine ⟨.invalidOutputIndex j, ?_, rfl, hclean.1, hclean.2.1⟩
    rw [computeKernel_eq (fuel + 1) kid s K hl hm, hstmts, kernReturn_fst]
    simp [Jsep.interp, hrun]

/-- Witness for C6: requesting two outputs from the one-output `add`
program fails with the output-count error; requesting output index 5
fails with the invalid-index error; invoking fixture kernel 5, whose
entry performs that `run`, reports a ShapeMismatch-family error and
leaves the backend clean. -/
theorem c6_output_validation_witness :
    (Jsep.run (.info addInfo) fixInputs [0, 0] fixState =
      (.error (.outputSizeMismatch 1), fixState) ∧
      (BErr.outputSizeMismatch 1).isShapeMismatch = true) ∧
    (∃ j s1, Jsep.run (.info addInfo) fixInputs [5] fixState =
        (.error (.invalidOutputIndex j), s1) ∧
      (j < -2 ∨ (1 : Int) ≤ j) ∧
      (BErr.invalidOutputIndex j).isShapeMismatch = true) ∧
    (∃ e, (Jsep.computeKernel 5 5 fixState).1 = .error e ∧
      e.isShapeMismatch = true ∧
      (Jsep.computeKernel 5 5 fixState).2.currentKernelId = none ∧
      (Jsep.computeKernel 5 5 fixState).2.temporaryData = []) :=
  ⟨c6_output_validation.1 (.info addInfo) fixInputs [0, 0] fixState
      [{ id := 10, type := 0 }, { id := 11, type := 0 }] addInfo 1
      rfl rfl rfl rfl (by decide),
   c6_output_validation.2.1 (.info addInfo) fixInputs [5] fixState
      [{ id := 10, type := 0 }, { id := 11, type := 0 }] addInfo 1
      rfl rfl rfl rfl (by decide) (by decide),
   c6_output_validation.2.2 3 5 fixState
      { name := "badIndex", entry := badIndexEntry, attrParse := none, attr := 0 }
      (.info addInfo) fixInputs [5] []
      [{ id := 10, type := 0 }, { id := 11, type := 0 }] addInfo 1
      rfl rfl rfl rfl rfl rfl rfl (by decide) (by decide)⟩

/-- **C10** — Empty output request defaults to all declared outputs: a
`run` invoked with an empty list of requested output slots behaves
exactly as if the caller had requested indices `0, 1, ..., n-1` over all
`n` declared outputs, and (given live inputs and a well-formed buffer
registry) succeeds, returning one kernel output per declared output. -/
theorem c10_empty_output_indices (program : ProgramLike) (inputs : List TensorView)
    (s : BState) (datas : List GpuData) (pi : ProgramInfo) (n : Nat)
    (hpi : pi = Jsep.resolvedInfo (Jsep.getArtifact s (runKey program inputs datas)) program)
    (hn : n = pi.outputs.length)
    (hwf : GpuWF s.gpu)
    (harity : inputs.length = program.inputTypes.length)
    (hres : Jsep.resolveInputDatas s.gpu inputs = .ok datas) :
    Jsep.run program inputs [] s =
      Jsep.run program inputs ((List.range n).map Int.ofNat) s ∧
    ∃ views s', Jsep.run program inputs [] s = (.ok views, s') ∧ views.length = n := by
  subst hpi
  subst hn
  constructor
  · simp only [runKey]
    simp only [Jsep.run, hres]
    rw [← validatedIndices_nil_eq]
  · obtain ⟨views, s', a, h1, h2, _⟩ :=
      run_rich program inputs [] s datas _ _ rfl rfl hwf harity hres
        (validatedIndices_nil_length _) (validatedIndices_nil_valid _ _)
    exact ⟨views, s', h1, h2⟩

/-- Witness for C10 on the fixture state: `run` with no requested outputs
equals `run` with `[0]` and succeeds with one output. -/
theorem c10_empty_output_indices_witness :
    (Jsep.run (.info addInfo) fixInputs [] fixState =
      Jsep.run (.info addInfo) fixInputs ((List.range 1).map Int.ofNat) fixState) ∧
    ∃ views s', Jsep.run (.info addInfo) fixInputs [] fixState = (.ok views, s') ∧
      views.length = 1 :=
  c10_empty_output_indices (.info addInfo) fixInputs fixState
    [{ id := 10, type := 0 }, { id := 11, type := 0 }] addInfo 1
    rfl rfl (by decide) rfl rfl


/-- **C3** — Program-cache compile-once: the cache key is
`getProgramInfoUniqueKey` (program name + cache hint + ordered input
shapes and gpu-data types).  For a first successful `run` and any second
`run` with identical program identity (name and cache hint), input
shapes, and input gpu-data types, the compiled artifact stored and
dispatched by the first invocation is found in the cache, the second
invocation dispatches that same artifact, and the compilation counter
does not move — no second compilation occurs. -/
theorem c3_program_cache_compile_once
    (program : ProgramLike) (inputs : List TensorView) (outs : List Int)
    (s : BState) (datas : List GpuData) (pi : ProgramInfo) (n : Nat)
    (program2 : ProgramLike) (inputs2 : List TensorView) (outs2 : List Int)
    (datas2 : List GpuData)
    (hpi : pi = Jsep.resolvedInfo (Jsep.getArtifact s (runKey program inputs datas)) program)
    (hn : n = pi.outputs.length)
    (hwf : GpuWF s.gpu)
    (harity : inputs.length = program.inputTypes.length)
    (hres : Jsep.resolveInputDatas s.gpu inputs = .ok datas)
    (hcount : (Jsep.validatedIndices outs n).length = n)
    (hvalid : ∀ p ∈ (Jsep.validatedIndices outs n).zip pi.outputs,
      ¬(p.1 < -2 ∨ (n : Int) ≤ p.1))
    (hname : program2.name = program.name)
    (hhint : program2.cacheHint = program.cacheHint)
    (hdims : inputs2.map (·.dims) = inputs.map (·.dims))
    (htypes : datas2.map (·.type) = datas.map (·.type))
    (harity2 : inputs2.length = program2.inputTypes.length)
    (hres2 : Jsep.resolveInputDatas s.gpu inputs2 = .ok datas2)
    (hcount2 : (Jsep.validatedIndices outs2 n).length = n)
    (hvalid2 : ∀ p ∈ (Jsep.validatedIndices outs2 n).zip pi.outputs,
      ¬(p.1 < -2 ∨ (n : Int) ≤ p.1)) :
    ∃ r1 s1 a r2 s2,
      Jsep.run program inputs outs s = (.ok r1, s1) ∧
      Jsep.getArtifact s1 (runKey program inputs datas) = some a ∧
      s1.lastRunArtifact = some a ∧
      Jsep.run program2 inputs2 outs2 s1 = (.ok r2, s2) ∧
      s2.lastRunArtifact = some a ∧
      s2.buildCount = s1.buildCount ∧
      Jsep.getArtifact s2 (runKey program inputs datas) = some a := by
  have hkey2 : runKey program2 inputs2 datas2 = runKey program inputs datas :=
    runKey_congr program program2 inputs inputs2 datas datas2 hname hhint hdims htypes
  obtain ⟨r1, s1, a, h1, hlen1, h3, h4, h5, h6, h7, h8, h9, h10, h11⟩ :=
    run_rich program inputs outs s datas pi n hpi hn hwf harity hres hcount hvalid
  have hres2' : Jsep.resolveInputDatas s1.gpu inputs2 = .ok datas2 :=
    resolveInputDatas_mono h8 inputs2 datas2 hres2
  have hart1 : Jsep.getArtifact s1 (runKey program2 inputs2 datas2) = some a := by
    rw [hkey2]
    exact h3
  have hpi2 : pi = Jsep.resolvedInfo
      (Jsep.getArtifact s1 (runKey program2 inputs2 datas2)) program2 := by
    rw [hart1]
    simp [Jsep.resolvedInfo, h5.symm]
  obtain ⟨r2, s2, a2, g1, glen, g3, g4, g5, g6, g7, g8, g9, g10, g11⟩ :=
    run_rich program2 inputs2 outs2 s1 datas2 pi n hpi2 hn h7 harity2 hres2' hcount2 hvalid2
  obtain ⟨haa, hbuild⟩ := g6 a hart1
  refine ⟨r1, s1, a, r2, s2, h1, h3, h4, g1, ?_, hbuild, ?_⟩
  · rw [← haa]
    exact g4
  · rw [← hkey2, ← haa]
    exact g3

/-- Witness for C3: running the `add` program twice with the same inputs
on the fixture backend compiles once and reuses the same artifact. -/
theorem c3_program_cache_compile_once_witness :
    ∃ r1 s1 a r2 s2,
      Jsep.run (.info addInfo) fixInputs [0] fixState = (.ok r1, s1) ∧
      Jsep.getArtifact s1 (runKey (.info addInfo) fixInputs
        [{ id := 10, type := 0 }, { id := 11, type := 0 }]) = some a ∧
      s1.lastRunArtifact = some a ∧
      Jsep.run (.info addInfo) fixInputs [0] s1 = (.ok r2, s2) ∧
      s2.lastRunArtifact = some a ∧
      s2.buildCount = s1.buildCount ∧
      Jsep.getArtifact s2 (runKey (.info addInfo) fixInputs
        [{ id := 10, type := 0 }, { id := 11, type := 0 }]) = some a :=
  c3_program_cache_compile_once (.info addInfo) fixInputs [0] fixState
    [{ id := 10, type := 0 }, { id := 11, type := 0 }] addInfo 1
    (.info addInfo) fixInputs [0] [{ id := 10, type := 0 }, { id := 11, type := 0 }]
    rfl rfl (by decide) rfl rfl (by decide) (by decide)
    rfl rfl rfl rfl rfl rfl (by decide) (by decide)

/-- **C8** — Persistent-buffer lifecycle: (1) a successful `run` appends
to the persistent-data list of the currently-executing kernel instance
exactly one buffer per persistent-marked (`-1`) output slot; (2) no
invocation ever removes entries from any instance's persistent-data list
(they survive across later invocations); (3) `releaseKernel` releases
every persistent buffer owned by the instance to the gpu-data manager,
removes its persistent-data entry, and removes the instance from the
kernel registry. -/
theorem c8_persistent_lifecycle :
    (∀ (program : ProgramLike) (inputs : List TensorView) (outs : List Int) (s : BState)
      (datas : List GpuData) (pi : ProgramInfo) (n : Nat),
      pi = Jsep.resolvedInfo (Jsep.getArtifact s (runKey program inputs datas)) program →
      n = pi.outputs.length →
      GpuWF s.gpu →
      inputs.length = program.inputTypes.length →
      Jsep.resolveInputDatas s.gpu inputs = .ok datas →
      (Jsep.validatedIndices outs n).length = n →
      (∀ p ∈ (Jsep.validatedIndices outs n).zip pi.outputs,
        ¬(p.1 < -2 ∨ (n : Int) ≤ p.1)) →
      ∃ views s' u,
        Jsep.run program inputs outs s = (.ok views, s') ∧
        lookupD s'.kernelPersistentData s.currentKernelId =
          lookupD s.kernelPersistentData s.currentKernelId ++ u ∧
        u.length = (((Jsep.validatedIndices outs n).zip pi.outputs).filter
          (fun p => p.1 = -1)).length) ∧
    (∀ (fuel kid : Nat) (s : BState) (key : Option Nat),
      ∃ u, lookupD (Jsep.computeKernel fuel kid s).2.kernelPersistentData key =
        lookupD s.kernelPersistentData key ++ u) ∧
    (∀ (kid : Nat) (s : BState),
      (∀ d ∈ lookupD s.kernelPersistentData (some kid),
        d.id ∈ (Jsep.releaseKernel kid s).gpu.released) ∧
      lookupA (Jsep.releaseKernel kid s).kernelPersistentData (some kid) = none ∧
      lookupA (Jsep.releaseKernel kid s).kernels kid = none) := by
  refine ⟨?_, computeKernel_kpd_mono, releaseKernel_spec⟩
  intro program inputs outs s datas pi n hpi hn hwf harity hres hcount hvalid
  obtain ⟨views, s', a, h1, _, _, _, _, _, _, _, _, _, h11⟩ :=
    run_rich program inputs outs s datas pi n hpi hn hwf harity hres hcount hvalid
  obtain ⟨u, hu, hulen⟩ := h11
  exact ⟨views, s', u, h1, hu, hulen⟩

/-- Witness for C8: a persistent-marked `run` under executing kernel 7
attaches one buffer to instance 7; an invocation never shrinks the
persistent map; releasing an instance owning buffer 55 releases it and
forgets the instance. -/
theorem c8_persistent_lifecycle_witness :
    (∃ views s' u,
      Jsep.run (.info addInfo) fixInputs [-1]
          { fixState with currentKernelId := some 7 } = (.ok views, s') ∧
      lookupD s'.kernelPersistentData
          ({ fixState with currentKernelId := some 7 } : BState).currentKernelId =
        lookupD ({ fixState with currentKernelId := some 7 } : BState).kernelPersistentData
          ({ fixState with currentKernelId := some 7 } : BState).currentKernelId ++ u ∧
      u.length = (((Jsep.validatedIndices [-1] 1).zip addInfo.outputs).filter
        (fun p => p.1 = -1)).length) ∧
    (∃ u, lookupD (Jsep.computeKernel 5 1 fixState).2.kernelPersistentData (some 1) =
      lookupD fixState.kernelPersistentData (some 1) ++ u) ∧
    ((∀ d ∈ lookupD ({ fixState with kernelPersistentData :=
          [(some 1, [{ id := 55, type := 0 }])] } : BState).kernelPersistentData (some 1),
        d.id ∈ (Jsep.releaseKernel 1 { fixState with kernelPersistentData :=
          [(some 1, [{ id := 55, type := 0 }])] }).gpu.released) ∧
      lookupA (Jsep.releaseKernel 1 { fixState with kernelPersistentData :=
          [(some 1, [{ id := 55, type := 0 }])] }).kernelPersistentData (some 1) = none ∧
      lookupA (Jsep.releaseKernel 1 { fixState with kernelPersistentData :=
          [(some 1, [{ id := 55, type := 0 }])] }).kernels 1 = none) :=
  ⟨c8_persistent_lifecycle.1 (.info addInfo) fixInputs [-1]
      { fixState with currentKernelId := some 7 }
      [{ id := 10, type := 0 }, { id := 11, type := 0 }] addInfo 1
      rfl rfl (by decide) rfl rfl (by decide) (by decide),
   c8_persistent_lifecycle.2.1 5 1 fixState (some 1),
   c8_persistent_lifecycle.2.2 1
      { fixState with kernelPersistentData := [(some 1, [{ id := 55, type := 0 }])] }⟩

